import Mathlib

/-! Pong simulation core: embedding of `src/main.js`.

The simulation of `src/main.js` (ball and paddle integration, swept paddle
collision, match state machine) is embedded over an arbitrary linearly
ordered field `K`, JavaScript numbers being read as exact numbers. The
functions of the JavaScript `Math` object that are not field operations
(`cos`, `sin`, `hypot`, the constant `PI`) and the results of `Math.random()`
are parameters. Rendering, the cosmetic trail buffer and DOM styling are not
part of the state; the calls to the sound object are recorded in a log.
-/

namespace Pong

/-- Functions of the JavaScript `Math` object used by the simulation -/
structure MathOps (K : Type) where
  cos : K → K
  sin : K → K
  hypot : K → K → K
  PI : K

/-- The `Math` object over the real numbers -/
noncomputable def realMath : MathOps ℝ where
  cos := Real.cos
  sin := Real.sin
  hypot := fun a b => Real.sqrt (a * a + b * b)
  PI := Real.pi

/-- Game phase, the values taken by `Game.state` -/
inductive Phase where
  | menu
  | serve
  | play
  | pause
  | over
  deriving DecidableEq, Repr

/-- Calls made to the `Sound` object: `hit(type)`, `cue(kind)` and `miss()` -/
inductive Sfx where
  | hitWall
  | hitPaddle
  | cueStart
  | cueCount
  | cueGo
  | cueScore
  | cueWin
  | miss
  deriving DecidableEq, Repr

/-- Rectangle returned by `Paddle.rect` -/
structure Rect (K : Type) where
  x : K
  y : K
  w : K
  h : K

/-- Fields of class `Paddle` -/
structure Paddle (K : Type) where
  x : K
  y : K
  vy : K

/-- Fields of class `Ball` -/
structure Ball (K : Type) where
  x : K
  y : K
  prevX : K
  prevY : K
  vx : K
  vy : K
  speed : K
  hits : Nat
  didWallBounce : Bool

/-- Fields of class `Input` that `Game.update` reads -/
structure Input (K : Type) where
  pointerYLeft : Option K
  pointerYRight : Option K
  isDownLeft : Bool
  isDownRight : Bool
  leftUp : Bool
  leftDown : Bool
  rightUp : Bool
  rightDown : Bool

/-- Fields of class `Game` that the simulation reads or writes. `prevState`,
`serveRemaining` and `lastServeSecond` are unset in the constructor; they are
`none`, `0` and `0` there. `title` is `title.textContent`, `overlayHidden` the
`hidden` class of the overlay, `sounds` the log of calls to `this.sound`. -/
structure Game (K : Type) where
  time : K
  flashTime : K
  left : Paddle K
  right : Paddle K
  ball : Ball K
  leftScore : Nat
  rightScore : Nat
  state : Phase
  prevState : Option Phase
  twoPlayer : Bool
  input : Input K
  matchTimeLeft : K
  serveRemaining : K
  lastServeSecond : Int
  title : String
  overlayHidden : Bool
  sounds : List Sfx

section Defs

variable {K : Type} [LinearOrderedField K]

/-! ## CONFIG (lines 2-77) -/

def CONFIG.world.w : K := 800
def CONFIG.world.h : K := 450
def CONFIG.paddle.w : K := 16
def CONFIG.paddle.h : K := 90
def CONFIG.paddle.speed : K := 520
def CONFIG.ball.r : K := 10
def CONFIG.ball.speed : K := 420
def CONFIG.ball.maxSpeed : K := 900
def CONFIG.ball.speedUpPerHit : K := 18
def CONFIG.ai.followSpeed : K := 420
def CONFIG.ai.deadZone : K := 14
def CONFIG.scoreToWin : Nat := 7
def CONFIG.bounce.maxAngleDeg : K := 55
/-- The constant `spinFactor: 0.18` -/
def CONFIG.bounce.spinFactor : K := 18 / 100
def CONFIG.matchDurationSeconds : K := 9 * 60
/-- The constant `flashMs: 320` -/
def CONFIG.effects.flashMs : K := 320
def CONFIG.serve.countdownSeconds : K := 3
/-- The constant `goHold: 0.25` -/
def CONFIG.serve.goHold : K := 25 / 100

/-! ## Helpers (lines 80-81) -/

/-- Line 80: `clamp = (v, a, b) => Math.max(a, Math.min(b, v))` -/
def clamp (v a b : K) : K := max a (min b v)

/-- Line 81: `sign = (v) => (v < 0 ? -1 : 1)` -/
def sign (v : K) : K := if v < 0 then -1 else 1

/-! ## Input (lines 303-313) -/

/-- Lines 303-313: `Input.getKeyboardAxisY(side)`, `right = true` for side "right" -/
def Input.getKeyboardAxisY (i : Input K) (right : Bool) : Int :=
  if right then
    if i.rightUp && !i.rightDown then -1
    else if i.rightDown && !i.rightUp then 1
    else 0
  else
    if i.leftUp && !i.leftDown then -1
    else if i.leftDown && !i.leftUp then 1
    else 0

/-! ## Paddle (lines 326-347) -/

/-- Lines 327-331: `new Paddle(x, y)` -/
def Paddle.new (x y : K) : Paddle K := { x := x, y := y, vy := 0 }

/-- Lines 333-340: `get rect()` -/
def Paddle.rect (p : Paddle K) : Rect K :=
  { x := p.x - CONFIG.paddle.w / 2
    y := p.y - CONFIG.paddle.h / 2
    w := CONFIG.paddle.w
    h := CONFIG.paddle.h }

/-- Lines 342-346: `Paddle.update(dt)` -/
def Paddle.update (p : Paddle K) (dt : K) : Paddle K :=
  let y := p.y + p.vy * dt
  let half : K := CONFIG.paddle.h / 2
  { p with y := clamp y half (CONFIG.world.h - half) }

/-- The bounds invariant of the data model:
`halfHeight <= y <= worldHeight - halfHeight` -/
def Paddle.inBounds (p : Paddle K) : Prop :=
  CONFIG.paddle.h / 2 ≤ p.y ∧ p.y ≤ CONFIG.world.h - CONFIG.paddle.h / 2

instance Paddle.decidableInBounds (p : Paddle K) : Decidable p.inBounds :=
  inferInstanceAs
    (Decidable (CONFIG.paddle.h / 2 ≤ p.y ∧ p.y ≤ CONFIG.world.h - CONFIG.paddle.h / 2))

/-! ## Ball (lines 349-386) -/

/-- Lines 354-366: `Ball.reset(dir)`; `rnd` is the value of `Math.random()` -/
def Ball.reset (M : MathOps K) (_b : Ball K) (dir rnd : K) : Ball K :=
  let x : K := CONFIG.world.w / 2
  let y : K := CONFIG.world.h / 2
  let angle : K := rnd * (6 / 10) - 3 / 10
  { x := x
    y := y
    prevX := x
    prevY := y
    vx := M.cos angle * CONFIG.ball.speed * dir
    vy := M.sin angle * CONFIG.ball.speed
    speed := CONFIG.ball.speed
    hits := 0
    didWallBounce := false }

/-- Lines 368-385: `Ball.update(dt)` -/
def Ball.update (b : Ball K) (dt : K) : Ball K :=
  let b1 : Ball K :=
    { b with
      didWallBounce := false
      prevX := b.x
      prevY := b.y
      x := b.x + b.vx * dt
      y := b.y + b.vy * dt }
  let r : K := CONFIG.ball.r
  if b1.y < r then
    { b1 with y := r, vy := |b1.vy|, didWallBounce := true }
  else if b1.y > CONFIG.world.h - r then
    { b1 with y := CONFIG.world.h - r, vy := -|b1.vy|, didWallBounce := true }
  else b1

/-- The speed invariant of the data model: `hypot(vx, vy) = speed`, squared -/
def Ball.speedInv (b : Ball K) : Prop :=
  b.vx * b.vx + b.vy * b.vy = b.speed * b.speed

instance Ball.decidableSpeedInv (b : Ball K) : Decidable b.speedInv :=
  inferInstanceAs (Decidable (b.vx * b.vx + b.vy * b.vy = b.speed * b.speed))

/-- Lines 388-394: `circleRectHit(cx, cy, r, rect)` -/
def circleRectHit (cx cy r : K) (rect : Rect K) : Bool :=
  let closestX := clamp cx rect.x (rect.x + rect.w)
  let closestY := clamp cy rect.y (rect.y + rect.h)
  let dx := cx - closestX
  let dy := cy - closestY
  decide (dx * dx + dy * dy ≤ r * r)

/-! ## Game (lines 396-838) -/

/-- Lines 397-463: the constructor. `r1` is the launch angle draw of
`new Ball()`, `r2` and `r3` the two draws of `showMenu()`. -/
def Game.new (M : MathOps K) (r1 r2 r3 : K) : Game K :=
  let b0 : Ball K :=
    { x := 0, y := 0, prevX := 0, prevY := 0, vx := 0, vy := 0, speed := 0,
      hits := 0, didWallBounce := false }
  let ball := b0.reset M 1 r1
  { time := 0
    flashTime := 0
    left := Paddle.new 40 (CONFIG.world.h / 2)
    right := Paddle.new (CONFIG.world.w - 40) (CONFIG.world.h / 2)
    ball := ball.reset M (sign (r2 - 1 / 2)) r3
    leftScore := 0
    rightScore := 0
    state := Phase.menu
    prevState := none
    twoPlayer := false
    input :=
      { pointerYLeft := none, pointerYRight := none, isDownLeft := false,
        isDownRight := false, leftUp := false, leftDown := false,
        rightUp := false, rightDown := false }
    matchTimeLeft := CONFIG.matchDurationSeconds
    serveRemaining := 0
    lastServeSecond := 0
    title := "Pong"
    overlayHidden := false
    sounds := [] }

/-- Lines 485-500: `_togglePause()` -/
def Game._togglePause (g : Game K) : Game K :=
  if g.state = Phase.play ∨ g.state = Phase.serve then
    { g with
      prevState := some g.state
      state := Phase.pause
      overlayHidden := false
      title := "Paused" }
  else if g.state = Phase.pause then
    let s := g.prevState.getD Phase.menu
    let g1 := { g with state := s }
    if s ≠ Phase.menu ∧ s ≠ Phase.over then { g1 with overlayHidden := true } else g1
  else g

/-- Lines 506-509: `_flash()` -/
def Game._flash (g : Game K) : Game K :=
  { g with flashTime := CONFIG.effects.flashMs / 1000 }

/-- Lines 577-592: `showMenu()`; `r1`, `r2` are its two `Math.random()` draws -/
def Game.showMenu (M : MathOps K) (g : Game K) (r1 r2 : K) : Game K :=
  { g with
    state := Phase.menu
    overlayHidden := false
    title := "Pong"
    twoPlayer := false
    ball := g.ball.reset M (sign (r1 - 1 / 2)) r2
    matchTimeLeft := CONFIG.matchDurationSeconds }

/-- Lines 502-504: `_quitToMenu()` -/
def Game._quitToMenu (M : MathOps K) (g : Game K) (r1 r2 : K) : Game K :=
  g.showMenu M r1 r2

/-- Lines 617-621: `_checkWin()` -/
def Game._checkWin (g : Game K) : Option String :=
  if g.leftScore ≥ CONFIG.scoreToWin then some "You Win!"
  else if g.rightScore ≥ CONFIG.scoreToWin then some "AI Wins!"
  else none

/-- Lines 631-639: `_beginServe(dir)`; `rnd` is the draw of `ball.reset` -/
def Game._beginServe [FloorRing K] (M : MathOps K) (g : Game K) (dir rnd : K) : Game K :=
  let sr : K := CONFIG.serve.countdownSeconds + CONFIG.serve.goHold
  { g with
    state := Phase.serve
    serveRemaining := sr
    lastServeSecond := Int.ceil sr
    ball := g.ball.reset M dir rnd
    sounds := g.sounds ++ [Sfx.cueStart] }

/-- Lines 641-643: `_endServeStartPlay()` -/
def Game._endServeStartPlay (g : Game K) : Game K :=
  { g with state := Phase.play }

/-- Lines 594-599: `start()` -/
def Game.start [FloorRing K] (M : MathOps K) (g : Game K) (r1 r2 : K) : Game K :=
  let g1 : Game K :=
    { g with overlayHidden := true, matchTimeLeft := CONFIG.matchDurationSeconds }
  g1._beginServe M (sign (r1 - 1 / 2)) r2

/-- Lines 601-610: `restart()`; four `Math.random()` draws -/
def Game.restart (M : MathOps K) (g : Game K) (r1 r2 r3 r4 : K) : Game K :=
  let g1 : Game K :=
    { g with
      leftScore := 0
      rightScore := 0
      left := { g.left with y := CONFIG.world.h / 2 }
      right := { g.right with y := CONFIG.world.h / 2 }
      ball := g.ball.reset M (sign (r1 - 1 / 2)) r2 }
  g1.showMenu M r3 r4

/-- Lines 825-838: `_gameOver(text)` -/
def Game._gameOver (g : Game K) (text : String) : Game K :=
  { g with
    state := Phase.over
    overlayHidden := false
    title := text
    sounds := g.sounds ++ [Sfx.cueWin] }

/-- Lines 570-575: `_startOrRestart()` -/
def Game._startOrRestart [FloorRing K] (M : MathOps K) (g : Game K)
    (r1 r2 r3 r4 : K) : Game K :=
  if g.state = Phase.menu then g.start M r1 r2
  else if g.state = Phase.over then g.restart M r1 r2 r3 r4
  else if g.state = Phase.pause then g._togglePause
  else g

/-! ### `_handlePaddleHit` (lines 748-823) -/

/-- Lines 758-780 of `_handlePaddleHit`: the swept test against the paddle
face; the pair is the values of `crossing` and `tHit` after the `if`. -/
def Game.sweep (b : Ball K) (paddle : Paddle K) (towardDir : K) : Bool × K :=
  let r : K := CONFIG.ball.r
  let rect := paddle.rect
  let x0 := b.prevX
  let x1 := b.x
  if towardDir < 0 then
    let faceX := rect.x
    let prevEdge := x0 + r
    let currEdge := x1 + r
    if prevEdge < faceX ∧ currEdge ≥ faceX then
      (true, (faceX - prevEdge) / (currEdge - prevEdge))
    else (false, 1)
  else
    let faceX := rect.x + rect.w
    let prevEdge := x0 - r
    let currEdge := x1 - r
    if prevEdge > faceX ∧ currEdge ≤ faceX then
      (true, (faceX - prevEdge) / (currEdge - prevEdge))
    else (false, 1)

/-- Lines 753-796 of `_handlePaddleHit`: `some yAt` when `collided` is true
at line 796, `none` when the function returns without a contact. -/
def Game.contact (b : Ball K) (paddle : Paddle K) (towardDir : K) : Option K :=
  let r : K := CONFIG.ball.r
  let rect := paddle.rect
  if towardDir > 0 ∧ b.vx ≥ 0 then none
  else if towardDir < 0 ∧ b.vx ≤ 0 then none
  else
    let y0 := b.prevY
    let y1 := b.y
    let sw := Game.sweep b paddle towardDir
    if sw.1 then
      let yAt := y0 + (y1 - y0) * clamp sw.2 0 1
      if yAt ≥ rect.y ∧ yAt ≤ rect.y + rect.h then some yAt else none
    else
      if circleRectHit b.x b.y r rect then some b.y else none

/-- Line 802 of `_handlePaddleHit`: `offset` -/
def Game.bounceOffset (yAt paddleY : K) : K :=
  clamp ((yAt - paddleY) / (CONFIG.paddle.h / 2)) (-1) 1

/-- Lines 803-804 of `_handlePaddleHit`: `angle` -/
def Game.bounceAngle (M : MathOps K) (yAt paddleY : K) : K :=
  let maxAngle : K := (CONFIG.bounce.maxAngleDeg * M.PI) / 180
  Game.bounceOffset yAt paddleY * maxAngle

/-- Lines 807-811 of `_handlePaddleHit`: the speed for the hit count `hits` -/
def Game.rampSpeed (hits : Nat) : K :=
  clamp (CONFIG.ball.speed + (hits : K) * CONFIG.ball.speedUpPerHit)
    CONFIG.ball.speed CONFIG.ball.maxSpeed

/-- Line 818 of `_handlePaddleHit`: `mag = Math.hypot(dirVx, dirVy) || b.speed` -/
def Game.hitMag (M : MathOps K) (dirVx dirVy speed : K) : K :=
  if M.hypot dirVx dirVy = 0 then speed else M.hypot dirVx dirVy

/-- Lines 798-822 of `_handlePaddleHit`: the ball after a contact at `yAt` -/
def Game.resolveHit (M : MathOps K) (b : Ball K) (paddle : Paddle K)
    (towardDir yAt : K) : Ball K :=
  let r : K := CONFIG.ball.r
  let rect := paddle.rect
  let x : K :=
    if towardDir > 0 then rect.x + rect.w + r + 1 / 1000 else rect.x - r - 1 / 1000
  let angle := Game.bounceAngle M yAt paddle.y
  let hits := b.hits + 1
  let speed : K := Game.rampSpeed hits
  let spinVy := paddle.vy * CONFIG.bounce.spinFactor
  let dirVx := M.cos angle * speed * towardDir
  let dirVy := M.sin angle * speed + spinVy
  let mag := Game.hitMag M dirVx dirVy speed
  let scale := speed / mag
  { b with x := x, hits := hits, speed := speed, vx := dirVx * scale, vy := dirVy * scale }

/-- Lines 748-823: `_handlePaddleHit(paddle, towardDir)` -/
def Game._handlePaddleHit (M : MathOps K) (g : Game K) (paddle : Paddle K)
    (towardDir : K) : Game K :=
  match Game.contact g.ball paddle towardDir with
  | none => g
  | some yAt =>
    { g with
      ball := Game.resolveHit M g.ball paddle towardDir yAt
      sounds := g.sounds ++ [Sfx.hitPaddle] }

/-! ### `update` (lines 645-746) -/

/-- Lines 647-652 of `update`: the time and the match clock -/
def Game.tickClock (g : Game K) (dt : K) : Game K :=
  let g1 : Game K := { g with time := g.time + dt }
  if g1.state = Phase.serve ∨ g1.state = Phase.play then
    { g1 with matchTimeLeft := max 0 (g1.matchTimeLeft - dt) }
  else g1

/-- Lines 654-656 of `update`: the outcome text at clock expiry -/
def Game.outcome (g : Game K) : String :=
  if g.leftScore = g.rightScore then "Draw!"
  else if g.leftScore > g.rightScore then "You Win!"
  else "AI Wins!"

/-- Line 661 of `update`: decay of the flash timer -/
def Game.tickFlash (g : Game K) (dt : K) : Game K :=
  if g.flashTime > 0 then { g with flashTime := max 0 (g.flashTime - dt) } else g

/-- Lines 663-675 of `update`: the serve countdown -/
def Game.tickServe [FloorRing K] (g : Game K) (dt : K) : Game K :=
  if g.state = Phase.serve then
    let sr : K := max 0 (g.serveRemaining - dt)
    let sec : Int := Int.ceil sr
    let g1 : Game K := { g with serveRemaining := sr }
    let g2 : Game K :=
      if sec ≠ g1.lastServeSecond then
        let g3 : Game K := { g1 with lastServeSecond := sec }
        if sr > CONFIG.serve.goHold then { g3 with sounds := g3.sounds ++ [Sfx.cueCount] }
        else if sr > 0 then { g3 with sounds := g3.sounds ++ [Sfx.cueGo] }
        else g3
      else g1
    if sr ≤ 0 then g2._endServeStartPlay else g2
  else g

/-- Lines 682-686 and 697-701 of `update`: the rate-limited move of a dragged
paddle toward the pointer -/
def Game.dragPaddle (p : Paddle K) (pointerY dt : K) : Paddle K :=
  let target := clamp pointerY (CONFIG.paddle.h / 2) (CONFIG.world.h - CONFIG.paddle.h / 2)
  let dy := target - p.y
  let maxStep : K := CONFIG.paddle.speed * dt
  { p with y := p.y + clamp dy (-maxStep) maxStep, vy := 0 }

/-- Lines 688-690 and 703-705 of `update`: the velocity from the keyboard axis -/
def Game.axisPaddle (p : Paddle K) (axis : Int) : Paddle K :=
  if axis ≠ 0 then { p with vy := (axis : K) * CONFIG.paddle.speed } else { p with vy := 0 }

/-- Lines 681-692 of `update`: the next left paddle, from the input and the paddle -/
def Game.leftPaddleStep (i : Input K) (p : Paddle K) (dt : K) : Paddle K :=
  match i.isDownLeft, i.pointerYLeft with
  | true, some py => Game.dragPaddle p py dt
  | _, _ => (Game.axisPaddle p (i.getKeyboardAxisY false)).update dt

/-- Lines 680-692 of `update`: the left paddle -/
def Game.tickLeft (g : Game K) (dt : K) : Game K :=
  { g with left := Game.leftPaddleStep g.input g.left dt }

/-- Lines 709-712 of `update`: the velocity chosen by the AI -/
def Game.aiPaddle (p : Paddle K) (ballY : K) : Paddle K :=
  let dy := ballY - p.y
  let dz : K := CONFIG.ai.deadZone
  if |dy| < dz then { p with vy := 0 }
  else { p with vy := clamp (dy * 3) (-CONFIG.ai.followSpeed) CONFIG.ai.followSpeed }

/-- Lines 695-714 of `update`: the next right paddle, from the two-player
flag, the input, the paddle and the ball height -/
def Game.rightPaddleStep (twoPlayer : Bool) (i : Input K) (p : Paddle K) (ballY dt : K) :
    Paddle K :=
  if twoPlayer then
    match i.isDownRight, i.pointerYRight with
    | true, some py => (Game.dragPaddle p py dt).update dt
    | _, _ => (Game.axisPaddle p (i.getKeyboardAxisY true)).update dt
  else
    (Game.aiPaddle p ballY).update dt

/-- Lines 694-714 of `update`: the right paddle -/
def Game.tickRight (g : Game K) (dt : K) : Game K :=
  { g with right := Game.rightPaddleStep g.twoPlayer g.input g.right g.ball.y dt }

/-- Lines 716-721 of `update`: ball integration and the wall sound -/
def Game.tickBall (g : Game K) (dt : K) : Game K :=
  let g1 : Game K :=
    if g.state = Phase.play then
      let g2 : Game K := { g with ball := g.ball.update dt }
      if g2.ball.didWallBounce then { g2 with sounds := g2.sounds ++ [Sfx.hitWall] } else g2
    else g
  if g1.ball.didWallBounce then { g1 with sounds := g1.sounds ++ [Sfx.hitWall] } else g1

/-- Lines 724-726 of `update`: the two paddle collisions -/
def Game.tickCollide (M : MathOps K) (g : Game K) : Game K :=
  let g1 := g._handlePaddleHit M g.left 1
  g1._handlePaddleHit M g1.right (-1)

/-- Lines 728-745 of `update`: scoring when the ball is out of bounds -/
def Game.tickScore [FloorRing K] (M : MathOps K) (g : Game K) (rnd : K) : Game K :=
  if g.ball.x < -40 then
    let g1 : Game K := { g with rightScore := g.rightScore + 1 }
    match g1._checkWin with
    | some win => g1._gameOver win
    | none =>
      let g2 : Game K := { g1 with sounds := g1.sounds ++ [Sfx.cueScore, Sfx.miss] }
      g2._flash._beginServe M 1 rnd
  else if g.ball.x > CONFIG.world.w + 40 then
    let g1 : Game K := { g with leftScore := g.leftScore + 1 }
    match g1._checkWin with
    | some win => g1._gameOver win
    | none =>
      let g2 : Game K := { g1 with sounds := g1.sounds ++ [Sfx.cueScore] }
      g2._beginServe M (-1) rnd
  else g

/-- Lines 661-726 of `update`: from the flash timer to the paddle collisions,
the state on which the out-of-bounds test of line 729 is made -/
def Game.rally [FloorRing K] (M : MathOps K) (g : Game K) (dt : K) : Game K :=
  Game.tickCollide M
    (Game.tickBall (Game.tickRight (Game.tickLeft (Game.tickServe (Game.tickFlash g dt) dt) dt) dt) dt)

/-- Lines 645-746: `update(dt)`; `rnd` is the value `Math.random()` returns
if a serve begins in this tick -/
def Game.update [FloorRing K] (M : MathOps K) (g : Game K) (dt rnd : K) : Game K :=
  if g.state = Phase.pause ∨ g.state = Phase.menu ∨ g.state = Phase.over then g
  else
    let g1 := g.tickClock dt
    if (g1.state = Phase.serve ∨ g1.state = Phase.play) ∧ g1.matchTimeLeft ≤ 0 then
      g1._gameOver g1.outcome
    else
      Game.tickScore M (Game.rally M g1 dt) rnd

/-- One animation frame as the simulation sees it: the input snapshot read by
the tick, its `dt`, and the value `Math.random()` would return -/
structure Tick (K : Type) where
  input : Input K
  dt : K
  rnd : K

/-- One frame: the input events since the last frame have set `this.input`,
then `update(dt)` runs (lines 991-996) -/
def Game.frame [FloorRing K] (M : MathOps K) (g : Game K) (t : Tick K) : Game K :=
  Game.update M { g with input := t.input } t.dt t.rnd

/-- A sequence of `update` calls, each with its `dt` and random draw -/
def Game.updates [FloorRing K] (M : MathOps K) (g : Game K) (ds : List (K × K)) : Game K :=
  ds.foldl (fun s t => Game.update M s t.1 t.2) g

/-- A sequence of frames -/
def Game.run [FloorRing K] (M : MathOps K) (g : Game K) (ts : List (Tick K)) : Game K :=
  ts.foldl (Game.frame M) g

/-- The total time of a list of frames -/
def Tick.total (ts : List (Tick K)) : K := (ts.map Tick.dt).sum

/-- The state of the serve cue logic in which no "go" cue has been emitted:
the log holds no "go" and `lastServeSecond` is `ceil(serveRemaining)` -/
def Game.noGoInv [FloorRing K] (g : Game K) : Prop :=
  Sfx.cueGo ∉ g.sounds ∧ g.lastServeSecond = Int.ceil g.serveRemaining

/-- The ball after `_handlePaddleHit(paddle, towardDir)` -/
def Game.hitBall (M : MathOps K) (b : Ball K) (paddle : Paddle K) (towardDir : K) : Ball K :=
  match Game.contact b paddle towardDir with
  | none => b
  | some yAt => Game.resolveHit M b paddle towardDir yAt

end Defs

/-! ## Concrete states -/

section Examples
variable {K : Type} [LinearOrderedField K]

/-- An input with no pointer and no key held -/
def Examples.idleInput : Input K :=
  { pointerYLeft := none, pointerYRight := none, isDownLeft := false,
    isDownRight := false, leftUp := false, leftDown := false,
    rightUp := false, rightDown := false }

/-- A ball at `x` moving horizontally with velocity `vx`, at mid height -/
def Examples.flatBall (x vx : K) : Ball K :=
  { x := x, y := 225, prevX := x, prevY := 225, vx := vx, vy := 0, speed := 420,
    hits := 0, didWallBounce := false }

/-- A fast ball whose last step of 50 jumped over the left paddle: its edge
went from 60 to 10 across the paddle face at 48 -/
def Examples.tunnelBall : Ball K :=
  { x := 20, y := 225, prevX := 70, prevY := 225, vx := -900, vy := 0, speed := 900,
    hits := 27, didWallBounce := false }

/-- The ball of the swept-collision case of the specification: `prevX = 30`,
`x = 55`, at mid height, with `vx < 0` -/
def Examples.sweptBall : Ball K :=
  { x := 55, y := 225, prevX := 30, prevY := 225, vx := -420, vy := 0, speed := 420,
    hits := 0, didWallBounce := false }

/-- A state in phase `st` with scores `l` and `r`, ball `b`, both paddles at
mid height, 100 s left on the match clock and 2 s of serve countdown -/
def Examples.stateWith (st : Phase) (l r : Nat) (b : Ball K) : Game K :=
  { time := 0
    flashTime := 0
    left := Paddle.new 40 225
    right := Paddle.new 760 225
    ball := b
    leftScore := l
    rightScore := r
    state := st
    prevState := none
    twoPlayer := false
    input := Examples.idleInput
    matchTimeLeft := 100
    serveRemaining := 2
    lastServeSecond := 2
    title := "Pong"
    overlayHidden := true
    sounds := [] }

/-- The over screen of a match won 7 to 3, with the paddles away from mid
height -/
def Examples.wonMatch : Game K :=
  { (Examples.stateWith Phase.over 7 3 (Examples.flatBall 850 420) : Game K) with
    left := { x := 40, y := 100, vy := 0 }
    right := { x := 760, y := 300, vy := 0 }
    matchTimeLeft := 200
    title := "You Win!"
    overlayHidden := false }

/-- A menu state at 0 to 0 with the left paddle at `y = 100`, above the
height 225 at which a ball served level travels -/
def Examples.lowLeft : Game K :=
  { (Examples.stateWith Phase.menu 0 0 (Examples.flatBall 400 420) : Game K) with
    left := { x := 40, y := 100, vy := 0 } }

/-- A frame of length `dt` with no pointer and no key held -/
def Examples.idleTick (dt : K) : Tick K :=
  { input := Examples.idleInput, dt := dt, rnd := 1 / 2 }

end Examples

/-! ## Frame lemmas -/

section Lemmas
variable {K : Type} [LinearOrderedField K]

theorem Game.handlePaddleHit_keeps (M : MathOps K) (g : Game K) (p : Paddle K) (d : K) :
    (g._handlePaddleHit M p d).time = g.time ∧
    (g._handlePaddleHit M p d).flashTime = g.flashTime ∧
    (g._handlePaddleHit M p d).left = g.left ∧
    (g._handlePaddleHit M p d).right = g.right ∧
    (g._handlePaddleHit M p d).leftScore = g.leftScore ∧
    (g._handlePaddleHit M p d).rightScore = g.rightScore ∧
    (g._handlePaddleHit M p d).state = g.state ∧
    (g._handlePaddleHit M p d).prevState = g.prevState ∧
    (g._handlePaddleHit M p d).twoPlayer = g.twoPlayer ∧
    (g._handlePaddleHit M p d).input = g.input ∧
    (g._handlePaddleHit M p d).matchTimeLeft = g.matchTimeLeft ∧
    (g._handlePaddleHit M p d).serveRemaining = g.serveRemaining ∧
    (g._handlePaddleHit M p d).lastServeSecond = g.lastServeSecond ∧
    (g._handlePaddleHit M p d).title = g.title ∧
    (g._handlePaddleHit M p d).overlayHidden = g.overlayHidden ∧
    (g._handlePaddleHit M p d).ball = Game.hitBall M g.ball p d := by
  unfold Game._handlePaddleHit Game.hitBall
  split <;> simp_all

theorem Game.tickCollide_keeps (M : MathOps K) (g : Game K) :
    (Game.tickCollide M g).time = g.time ∧
    (Game.tickCollide M g).flashTime = g.flashTime ∧
    (Game.tickCollide M g).left = g.left ∧
    (Game.tickCollide M g).right = g.right ∧
    (Game.tickCollide M g).leftScore = g.leftScore ∧
    (Game.tickCollide M g).rightScore = g.rightScore ∧
    (Game.tickCollide M g).state = g.state ∧
    (Game.tickCollide M g).prevState = g.prevState ∧
    (Game.tickCollide M g).twoPlayer = g.twoPlayer ∧
    (Game.tickCollide M g).input = g.input ∧
    (Game.tickCollide M g).matchTimeLeft = g.matchTimeLeft ∧
    (Game.tickCollide M g).serveRemaining = g.serveRemaining ∧
    (Game.tickCollide M g).lastServeSecond = g.lastServeSecond ∧
    (Game.tickCollide M g).title = g.title ∧
    (Game.tickCollide M g).overlayHidden = g.overlayHidden ∧
    (Game.tickCollide M g).ball =
      Game.hitBall M (Game.hitBall M g.ball g.left 1) g.right (-1) := by
  unfold Game.tickCollide
  simp only [Game.handlePaddleHit_keeps, and_self]

theorem Game.tickBall_keeps (g : Game K) (dt : K) :
    (Game.tickBall g dt).time = g.time ∧
    (Game.tickBall g dt).flashTime = g.flashTime ∧
    (Game.tickBall g dt).left = g.left ∧
    (Game.tickBall g dt).right = g.right ∧
    (Game.tickBall g dt).leftScore = g.leftScore ∧
    (Game.tickBall g dt).rightScore = g.rightScore ∧
    (Game.tickBall g dt).state = g.state ∧
    (Game.tickBall g dt).prevState = g.prevState ∧
    (Game.tickBall g dt).twoPlayer = g.twoPlayer ∧
    (Game.tickBall g dt).input = g.input ∧
    (Game.tickBall g dt).matchTimeLeft = g.matchTimeLeft ∧
    (Game.tickBall g dt).serveRemaining = g.serveRemaining ∧
    (Game.tickBall g dt).lastServeSecond = g.lastServeSecond ∧
    (Game.tickBall g dt).title = g.title ∧
    (Game.tickBall g dt).overlayHidden = g.overlayHidden ∧
    (Game.tickBall g dt).ball = if g.state = Phase.play then g.ball.update dt else g.ball := by
  unfold Game.tickBall
  by_cases h : g.state = Phase.play <;> simp only [h, if_true, if_false] <;> split_ifs <;> simp

theorem Game.tickFlash_keeps (g : Game K) (dt : K) :
    (Game.tickFlash g dt).time = g.time ∧
    (Game.tickFlash g dt).left = g.left ∧
    (Game.tickFlash g dt).right = g.right ∧
    (Game.tickFlash g dt).ball = g.ball ∧
    (Game.tickFlash g dt).leftScore = g.leftScore ∧
    (Game.tickFlash g dt).rightScore = g.rightScore ∧
    (Game.tickFlash g dt).state = g.state ∧
    (Game.tickFlash g dt).prevState = g.prevState ∧
    (Game.tickFlash g dt).twoPlayer = g.twoPlayer ∧
    (Game.tickFlash g dt).input = g.input ∧
    (Game.tickFlash g dt).matchTimeLeft = g.matchTimeLeft ∧
    (Game.tickFlash g dt).serveRemaining = g.serveRemaining ∧
    (Game.tickFlash g dt).lastServeSecond = g.lastServeSecond ∧
    (Game.tickFlash g dt).title = g.title ∧
    (Game.tickFlash g dt).overlayHidden = g.overlayHidden ∧
    (Game.tickFlash g dt).sounds = g.sounds := by
  unfold Game.tickFlash
  split_ifs <;> simp

theorem Game.tickServe_keeps [FloorRing K] (g : Game K) (dt : K) :
    (Game.tickServe g dt).time = g.time ∧
    (Game.tickServe g dt).flashTime = g.flashTime ∧
    (Game.tickServe g dt).left = g.left ∧
    (Game.tickServe g dt).right = g.right ∧
    (Game.tickServe g dt).ball = g.ball ∧
    (Game.tickServe g dt).leftScore = g.leftScore ∧
    (Game.tickServe g dt).rightScore = g.rightScore ∧
    (Game.tickServe g dt).prevState = g.prevState ∧
    (Game.tickServe g dt).twoPlayer = g.twoPlayer ∧
    (Game.tickServe g dt).input = g.input ∧
    (Game.tickServe g dt).matchTimeLeft = g.matchTimeLeft ∧
    (Game.tickServe g dt).title = g.title ∧
    (Game.tickServe g dt).overlayHidden = g.overlayHidden ∧
    (Game.tickServe g dt).serveRemaining =
      (if g.state = Phase.serve then max 0 (g.serveRemaining - dt) else g.serveRemaining) ∧
    (Game.tickServe g dt).state =
      (if g.state = Phase.serve ∧ max 0 (g.serveRemaining - dt) ≤ 0 then Phase.play
        else g.state) := by
  unfold Game.tickServe Game._endServeStartPlay
  simp only
  split_ifs <;> simp_all

theorem Game.tickServe_of_ne [FloorRing K] (g : Game K) (dt : K) (h : g.state ≠ Phase.serve) :
    Game.tickServe g dt = g := by
  unfold Game.tickServe
  simp [h]

theorem Game.tickClock_keeps (g : Game K) (dt : K) :
    (g.tickClock dt).time = g.time + dt ∧
    (g.tickClock dt).flashTime = g.flashTime ∧
    (g.tickClock dt).left = g.left ∧
    (g.tickClock dt).right = g.right ∧
    (g.tickClock dt).ball = g.ball ∧
    (g.tickClock dt).leftScore = g.leftScore ∧
    (g.tickClock dt).rightScore = g.rightScore ∧
    (g.tickClock dt).state = g.state ∧
    (g.tickClock dt).prevState = g.prevState ∧
    (g.tickClock dt).twoPlayer = g.twoPlayer ∧
    (g.tickClock dt).input = g.input ∧
    (g.tickClock dt).serveRemaining = g.serveRemaining ∧
    (g.tickClock dt).lastServeSecond = g.lastServeSecond ∧
    (g.tickClock dt).title = g.title ∧
    (g.tickClock dt).overlayHidden = g.overlayHidden ∧
    (g.tickClock dt).sounds = g.sounds := by
  unfold Game.tickClock
  simp only
  split_ifs <;> simp

theorem Game.tickClock_matchTimeLeft (g : Game K) (dt : K)
    (h : g.state = Phase.serve ∨ g.state = Phase.play) :
    (g.tickClock dt).matchTimeLeft = max 0 (g.matchTimeLeft - dt) := by
  unfold Game.tickClock
  simp [h]

theorem Game.rally_keeps [FloorRing K] (M : MathOps K) (g : Game K) (dt : K) :
    (Game.rally M g dt).time = g.time ∧
    (Game.rally M g dt).leftScore = g.leftScore ∧
    (Game.rally M g dt).rightScore = g.rightScore ∧
    (Game.rally M g dt).prevState = g.prevState ∧
    (Game.rally M g dt).twoPlayer = g.twoPlayer ∧
    (Game.rally M g dt).input = g.input ∧
    (Game.rally M g dt).matchTimeLeft = g.matchTimeLeft ∧
    (Game.rally M g dt).title = g.title ∧
    (Game.rally M g dt).overlayHidden = g.overlayHidden ∧
    (Game.rally M g dt).left = Game.leftPaddleStep g.input g.left dt ∧
    (Game.rally M g dt).right =
      Game.rightPaddleStep g.twoPlayer g.input g.right g.ball.y dt ∧
    (Game.rally M g dt).serveRemaining =
      (if g.state = Phase.serve then max 0 (g.serveRemaining - dt) else g.serveRemaining) ∧
    (Game.rally M g dt).state =
      (if g.state = Phase.serve ∧ max 0 (g.serveRemaining - dt) ≤ 0 then Phase.play
        else g.state) := by
  unfold Game.rally
  simp only [Game.tickCollide_keeps, Game.tickBall_keeps, Game.tickRight, Game.tickLeft,
    Game.tickServe_keeps, Game.tickFlash_keeps, and_self]

theorem Game.rally_ball [FloorRing K] (M : MathOps K) (g : Game K) (dt : K) :
    (Game.rally M g dt).ball =
      Game.hitBall M
        (Game.hitBall M
          (if (Game.rally M g dt).state = Phase.play then g.ball.update dt else g.ball)
          (Game.leftPaddleStep g.input g.left dt) 1)
        (Game.rightPaddleStep g.twoPlayer g.input g.right g.ball.y dt) (-1) := by
  simp only [Game.rally_keeps]
  unfold Game.rally
  simp only [Game.tickCollide_keeps, Game.tickBall_keeps, Game.tickRight, Game.tickLeft,
    Game.tickServe_keeps, Game.tickFlash_keeps, and_self]

end Lemmas

section UpdateLemmas
variable {K : Type} [LinearOrderedField K] [FloorRing K]

theorem Game.update_of_idle (M : MathOps K) (g : Game K) (dt rnd : K)
    (h : g.state = Phase.pause ∨ g.state = Phase.menu ∨ g.state = Phase.over) :
    g.update M dt rnd = g := by
  unfold Game.update
  simp [h]

theorem Game.update_of_expired (M : MathOps K) (g : Game K) (dt rnd : K)
    (h : g.state = Phase.serve ∨ g.state = Phase.play) (he : g.matchTimeLeft - dt ≤ 0) :
    g.update M dt rnd = (g.tickClock dt)._gameOver (g.tickClock dt).outcome := by
  have h1 : ¬ (g.state = Phase.pause ∨ g.state = Phase.menu ∨ g.state = Phase.over) := by
    rcases h with h | h <;> simp [h]
  have h2 : (g.tickClock dt).matchTimeLeft ≤ 0 := by
    rw [Game.tickClock_matchTimeLeft g dt h]
    simp [he]
  unfold Game.update
  simp only [h1, if_false, Game.tickClock_keeps, h, h2, and_self, if_true]

theorem Game.update_of_live (M : MathOps K) (g : Game K) (dt rnd : K)
    (h : g.state = Phase.serve ∨ g.state = Phase.play) (he : 0 < g.matchTimeLeft - dt) :
    g.update M dt rnd = Game.tickScore M (Game.rally M (g.tickClock dt) dt) rnd := by
  have h1 : ¬ (g.state = Phase.pause ∨ g.state = Phase.menu ∨ g.state = Phase.over) := by
    rcases h with h | h <;> simp [h]
  have h2 : ¬ (g.tickClock dt).matchTimeLeft ≤ 0 := by
    rw [Game.tickClock_matchTimeLeft g dt h, max_le_iff]
    intro hle
    linarith [hle.2]
  unfold Game.update
  simp only [h1, if_false, h2, and_false]

end UpdateLemmas

/-- Claim C2: in phase serve or play, a tick on which the match clock reaches
zero or less ends the match with the outcome text "Draw!", "You Win!" or
"AI Wins!" by comparison of the scores, and in that tick the scores, the ball
and both paddles are unchanged. -/
theorem C2_clock_expiry {K : Type} [LinearOrderedField K] [FloorRing K] (M : MathOps K)
    (g : Game K) (dt rnd : K)
    (hphase : g.state = Phase.serve ∨ g.state = Phase.play)
    (hexp : g.matchTimeLeft - dt ≤ 0) :
    (g.update M dt rnd).state = Phase.over ∧
    (g.update M dt rnd).title =
      (if g.leftScore = g.rightScore then "Draw!"
        else if g.leftScore > g.rightScore then "You Win!" else "AI Wins!") ∧
    (g.update M dt rnd).leftScore = g.leftScore ∧
    (g.update M dt rnd).rightScore = g.rightScore ∧
    (g.update M dt rnd).ball = g.ball ∧
    (g.update M dt rnd).left = g.left ∧
    (g.update M dt rnd).right = g.right := by
  rw [Game.update_of_expired M g dt rnd hphase hexp]
  simp only [Game._gameOver, Game.outcome, Game.tickClock_keeps, and_self]

/-- Claim C2 at the scores 3 and 5 -/
theorem C2_clock_expiry_witness :
    ((Examples.stateWith Phase.play 3 5 (Examples.flatBall (-35) (-420)) : Game ℝ).state
        = Phase.serve ∨
      (Examples.stateWith Phase.play 3 5 (Examples.flatBall (-35) (-420)) : Game ℝ).state
        = Phase.play) ∧
    (Examples.stateWith Phase.play 3 5 (Examples.flatBall (-35) (-420)) : Game ℝ).matchTimeLeft
      - 100 ≤ 0 ∧
    ((Examples.stateWith Phase.play 3 5 (Examples.flatBall (-35) (-420)) : Game ℝ).update
      realMath 100 0).title = "AI Wins!" := by
  refine ⟨Or.inr rfl, by simp [Examples.stateWith], ?_⟩
  have h := (C2_clock_expiry realMath
    (Examples.stateWith Phase.play 3 5 (Examples.flatBall (-35) (-420)) : Game ℝ) 100 0
    (Or.inr rfl) (by simp [Examples.stateWith])).2.1
  rw [h]
  simp [Examples.stateWith]

section ScoreLemmas
variable {K : Type} [LinearOrderedField K] [FloorRing K]

theorem Game.tickScore_left_out (M : MathOps K) (g : Game K) (rnd : K)
    (h : g.ball.x < -40) :
    (Game.tickScore M g rnd).rightScore = g.rightScore + 1 ∧
    (Game.tickScore M g rnd).leftScore = g.leftScore ∧
    (if CONFIG.scoreToWin ≤ g.leftScore ∨ CONFIG.scoreToWin ≤ g.rightScore + 1 then
      (Game.tickScore M g rnd).state = Phase.over ∧
      (Game.tickScore M g rnd).ball = g.ball ∧
      (Game.tickScore M g rnd).serveRemaining = g.serveRemaining
    else
      (Game.tickScore M g rnd).state = Phase.serve ∧
      (Game.tickScore M g rnd).ball = g.ball.reset M 1 rnd ∧
      (Game.tickScore M g rnd).serveRemaining =
        CONFIG.serve.countdownSeconds + CONFIG.serve.goHold) := by
  unfold Game.tickScore
  rw [if_pos h]
  unfold Game._checkWin
  by_cases hl : CONFIG.scoreToWin ≤ g.leftScore
  · simp [hl, Game._gameOver]
  · by_cases hr : CONFIG.scoreToWin ≤ g.rightScore + 1
    · simp [hl, hr, Game._gameOver]
    · simp [hl, hr, Game._beginServe, Game._flash, Ball.reset]

theorem Game.tickScore_right_out (M : MathOps K) (g : Game K) (rnd : K)
    (h : CONFIG.world.w + 40 < g.ball.x) :
    (Game.tickScore M g rnd).leftScore = g.leftScore + 1 ∧
    (Game.tickScore M g rnd).rightScore = g.rightScore ∧
    (if CONFIG.scoreToWin ≤ g.leftScore + 1 ∨ CONFIG.scoreToWin ≤ g.rightScore then
      (Game.tickScore M g rnd).state = Phase.over ∧
      (Game.tickScore M g rnd).ball = g.ball ∧
      (Game.tickScore M g rnd).serveRemaining = g.serveRemaining
    else
      (Game.tickScore M g rnd).state = Phase.serve ∧
      (Game.tickScore M g rnd).ball = g.ball.reset M (-1) rnd ∧
      (Game.tickScore M g rnd).serveRemaining =
        CONFIG.serve.countdownSeconds + CONFIG.serve.goHold) := by
  have hx : ¬ g.ball.x < -40 := by
    unfold CONFIG.world.w at h
    intro hlt
    linarith
  unfold Game.tickScore
  rw [if_neg hx, if_pos h]
  unfold Game._checkWin
  by_cases hl : CONFIG.scoreToWin ≤ g.leftScore + 1
  · simp [hl, Game._gameOver]
  · by_cases hr : CONFIG.scoreToWin ≤ g.rightScore
    · simp [hl, hr, Game._gameOver]
    · simp [hl, hr, Game._beginServe, Ball.reset]

end ScoreLemmas

theorem cos_launch_pos (rnd : ℝ) (h0 : 0 ≤ rnd) (h1 : rnd < 1) :
    0 < Real.cos (rnd * (6 / 10) - 3 / 10) :=
  Real.cos_pos_of_mem_Ioo
    ⟨by linarith [Real.pi_gt_three], by linarith [Real.pi_gt_three]⟩

/-- Claim C1 (amended): in phase play on a tick that does not expire the match
clock, a ball left of `-40` after integration and collision handling adds
exactly one to `rightScore` and leaves `leftScore`; the phase becomes over,
with no serve, when `rightScore + 1` or `leftScore` has reached `scoreToWin`,
and otherwise serve with the ball reset in direction `+1`, `vx > 0`. The
mirrored statement holds right of `worldWidth + 40`. -/
theorem C1_scoring (g : Game ℝ) (dt rnd : ℝ)
    (hplay : g.state = Phase.play) (hclock : 0 < g.matchTimeLeft - dt)
    (hrnd : 0 ≤ rnd ∧ rnd < 1) :
    ((Game.rally realMath (g.tickClock dt) dt).ball.x < -40 →
      (g.update realMath dt rnd).rightScore = g.rightScore + 1 ∧
      (g.update realMath dt rnd).leftScore = g.leftScore ∧
      (if CONFIG.scoreToWin ≤ g.leftScore ∨ CONFIG.scoreToWin ≤ g.rightScore + 1 then
        (g.update realMath dt rnd).state = Phase.over ∧
        (g.update realMath dt rnd).ball = (Game.rally realMath (g.tickClock dt) dt).ball ∧
        (g.update realMath dt rnd).serveRemaining = g.serveRemaining
      else
        (g.update realMath dt rnd).state = Phase.serve ∧
        (g.update realMath dt rnd).ball =
          (Game.rally realMath (g.tickClock dt) dt).ball.reset realMath 1 rnd ∧
        0 < (g.update realMath dt rnd).ball.vx)) ∧
    (CONFIG.world.w + 40 < (Game.rally realMath (g.tickClock dt) dt).ball.x →
      (g.update realMath dt rnd).leftScore = g.leftScore + 1 ∧
      (g.update realMath dt rnd).rightScore = g.rightScore ∧
      (if CONFIG.scoreToWin ≤ g.leftScore + 1 ∨ CONFIG.scoreToWin ≤ g.rightScore then
        (g.update realMath dt rnd).state = Phase.over ∧
        (g.update realMath dt rnd).ball = (Game.rally realMath (g.tickClock dt) dt).ball ∧
        (g.update realMath dt rnd).serveRemaining = g.serveRemaining
      else
        (g.update realMath dt rnd).state = Phase.serve ∧
        (g.update realMath dt rnd).ball =
          (Game.rally realMath (g.tickClock dt) dt).ball.reset realMath (-1) rnd ∧
        (g.update realMath dt rnd).ball.vx < 0)) := by
  have hcos := cos_launch_pos rnd hrnd.1 hrnd.2
  have hsr : (if g.state = Phase.serve then max 0 (g.serveRemaining - dt)
      else g.serveRemaining) = g.serveRemaining := by
    simp [hplay]
  rw [Game.update_of_live realMath g dt rnd (Or.inr hplay) hclock]
  constructor
  · intro hx
    have h := Game.tickScore_left_out realMath _ rnd hx
    simp only [Game.rally_keeps, Game.tickClock_keeps, hsr] at h
    refine ⟨h.1, h.2.1, ?_⟩
    have h3 := h.2.2
    by_cases hc : CONFIG.scoreToWin ≤ g.leftScore ∨ CONFIG.scoreToWin ≤ g.rightScore + 1
    · rw [if_pos hc] at h3 ⊢
      exact h3
    · rw [if_neg hc] at h3 ⊢
      refine ⟨h3.1, h3.2.1, ?_⟩
      rw [h3.2.1]
      simp only [Ball.reset, realMath, CONFIG.ball.speed]
      positivity
  · intro hx
    have h := Game.tickScore_right_out realMath _ rnd hx
    simp only [Game.rally_keeps, Game.tickClock_keeps, hsr] at h
    refine ⟨h.1, h.2.1, ?_⟩
    have h3 := h.2.2
    by_cases hc : CONFIG.scoreToWin ≤ g.leftScore + 1 ∨ CONFIG.scoreToWin ≤ g.rightScore
    · rw [if_pos hc] at h3 ⊢
      exact h3
    · rw [if_neg hc] at h3 ⊢
      refine ⟨h3.1, h3.2.1, ?_⟩
      rw [h3.2.1]
      simp only [Ball.reset, realMath, CONFIG.ball.speed]
      nlinarith

theorem Examples.leftExit_rally_x (l r : Nat) :
    (Game.rally realMath
      ((Examples.stateWith Phase.play l r (Examples.flatBall (-35) (-420)) : Game ℝ).tickClock
        (1 / 60)) (1 / 60)).ball.x = -42 := by
  rw [Game.rally_ball]
  simp only [Game.rally_keeps, Game.tickClock_keeps]
  norm_num [Examples.stateWith, Examples.flatBall, Examples.idleInput, Game.hitBall,
    Game.contact, Game.sweep, circleRectHit, clamp, Paddle.rect, Paddle.new, Ball.update,
    Game.leftPaddleStep, Game.rightPaddleStep, Game.aiPaddle, Game.axisPaddle, Paddle.update,
    Input.getKeyboardAxisY, CONFIG.ball.r, CONFIG.world.h, CONFIG.paddle.h, CONFIG.paddle.w,
    CONFIG.ai.deadZone, CONFIG.ai.followSpeed, CONFIG.paddle.speed]

/-- Claim C1 as stated fails: with `leftScore = 7` and `rightScore = 0` a ball
leaving on the left ends the match although `rightScore + 1 < scoreToWin`. -/
theorem C1_counterexample :
    (Examples.stateWith Phase.play 7 0 (Examples.flatBall (-35) (-420)) : Game ℝ).state
      = Phase.play ∧
    0 < (Examples.stateWith Phase.play 7 0 (Examples.flatBall (-35) (-420)) : Game ℝ).matchTimeLeft
      - 1 / 60 ∧
    (Game.rally realMath
      ((Examples.stateWith Phase.play 7 0 (Examples.flatBall (-35) (-420)) : Game ℝ).tickClock
        (1 / 60)) (1 / 60)).ball.x < -40 ∧
    (Examples.stateWith Phase.play 7 0 (Examples.flatBall (-35) (-420)) : Game ℝ).rightScore + 1
      < CONFIG.scoreToWin ∧
    ((Examples.stateWith Phase.play 7 0 (Examples.flatBall (-35) (-420)) : Game ℝ).update
      realMath (1 / 60) (1 / 2)).state = Phase.over := by
  have hb := Examples.leftExit_rally_x 7 0
  refine ⟨rfl, by norm_num [Examples.stateWith], by rw [hb]; norm_num, by decide, ?_⟩
  rw [Game.update_of_live _ _ _ _ (Or.inr rfl) (by norm_num [Examples.stateWith])]
  unfold Game.tickScore
  rw [if_pos (by rw [hb]; norm_num)]
  simp [Game._checkWin, Game.rally_keeps, Game.tickClock_keeps, Examples.stateWith,
    CONFIG.scoreToWin, Game._gameOver]

/-- Claim C1 at the scores 2 and 3: the tick scores for the right side and
begins a serve -/
theorem C1_scoring_witness :
    (Examples.stateWith Phase.play 2 3 (Examples.flatBall (-35) (-420)) : Game ℝ).state
      = Phase.play ∧
    0 < (Examples.stateWith Phase.play 2 3 (Examples.flatBall (-35) (-420)) : Game ℝ).matchTimeLeft
      - 1 / 60 ∧
    (Game.rally realMath
      ((Examples.stateWith Phase.play 2 3 (Examples.flatBall (-35) (-420)) : Game ℝ).tickClock
        (1 / 60)) (1 / 60)).ball.x < -40 ∧
    ((Examples.stateWith Phase.play 2 3 (Examples.flatBall (-35) (-420)) : Game ℝ).update
      realMath (1 / 60) (1 / 2)).rightScore = 4 ∧
    ((Examples.stateWith Phase.play 2 3 (Examples.flatBall (-35) (-420)) : Game ℝ).update
      realMath (1 / 60) (1 / 2)).state = Phase.serve ∧
    0 < ((Examples.stateWith Phase.play 2 3 (Examples.flatBall (-35) (-420)) : Game ℝ).update
      realMath (1 / 60) (1 / 2)).ball.vx := by
  have hx : (Game.rally realMath
      ((Examples.stateWith Phase.play 2 3 (Examples.flatBall (-35) (-420)) : Game ℝ).tickClock
        (1 / 60)) (1 / 60)).ball.x < -40 := by
    rw [Examples.leftExit_rally_x 2 3]
    norm_num
  have h := (C1_scoring (Examples.stateWith Phase.play 2 3 (Examples.flatBall (-35) (-420)))
    (1 / 60) (1 / 2) rfl (by norm_num [Examples.stateWith]) (by norm_num)).1 hx
  have hc : ¬ (CONFIG.scoreToWin ≤
        (Examples.stateWith Phase.play 2 3 (Examples.flatBall (-35) (-420)) : Game ℝ).leftScore ∨
      CONFIG.scoreToWin ≤
        (Examples.stateWith Phase.play 2 3 (Examples.flatBall (-35) (-420)) : Game ℝ).rightScore
          + 1) := by
    decide
  rw [if_neg hc] at h
  exact ⟨rfl, by norm_num [Examples.stateWith], hx, h.1, h.2.2.1, h.2.2.2.2⟩

/-! ## Speed ramp and bounce angle -/

section RampLemmas
variable {K : Type} [LinearOrderedField K]

theorem clamp_mem (v a b : K) (hab : a ≤ b) : a ≤ clamp v a b ∧ clamp v a b ≤ b := by
  unfold clamp
  exact ⟨le_max_left _ _, max_le hab (min_le_left _ _)⟩

theorem clamp_of_mem (v a b : K) (h1 : a ≤ v) (h2 : v ≤ b) : clamp v a b = v := by
  unfold clamp
  rw [min_eq_right h2, max_eq_right h1]

theorem Game.rampSpeed_eq (n : Nat) :
    (Game.rampSpeed n : K) = min (420 + 18 * (n : K)) 900 := by
  have hn : (0 : K) ≤ (n : K) := Nat.cast_nonneg n
  unfold Game.rampSpeed clamp CONFIG.ball.speed CONFIG.ball.speedUpPerHit CONFIG.ball.maxSpeed
  rw [max_eq_right (le_min (by norm_num) (by linarith)), min_comm, mul_comm]

theorem Game.rampSpeed_mono {m n : Nat} (h : m ≤ n) :
    (Game.rampSpeed m : K) ≤ Game.rampSpeed n := by
  have hc : (m : K) ≤ (n : K) := by exact_mod_cast h
  rw [Game.rampSpeed_eq, Game.rampSpeed_eq]
  exact min_le_min (by linarith) le_rfl

theorem Game.rampSpeed_cap (n : Nat) : (Game.rampSpeed n : K) = 900 ↔ 27 ≤ n := by
  rw [Game.rampSpeed_eq]
  constructor
  · intro h
    by_contra hlt
    have h26 : n ≤ 26 := by omega
    have hc : (n : K) ≤ 26 := by exact_mod_cast h26
    have : min (420 + 18 * (n : K)) 900 ≤ 420 + 18 * (n : K) := min_le_left _ _
    linarith
  · intro h
    have hc : (27 : K) ≤ (n : K) := by exact_mod_cast h
    exact min_eq_right (by linarith)

theorem Game.rampSpeed_pos (n : Nat) : (0 : K) < Game.rampSpeed n := by
  have h := (clamp_mem (CONFIG.ball.speed + (n : K) * CONFIG.ball.speedUpPerHit)
    (CONFIG.ball.speed : K) CONFIG.ball.maxSpeed
    (by unfold CONFIG.ball.speed CONFIG.ball.maxSpeed; norm_num)).1
  unfold Game.rampSpeed
  unfold CONFIG.ball.speed at h ⊢
  linarith

theorem Game.handlePaddleHit_of_contact (M : MathOps K) (g : Game K) (p : Paddle K)
    (d yAt : K) (h : Game.contact g.ball p d = some yAt) :
    (g._handlePaddleHit M p d).ball = Game.resolveHit M g.ball p d yAt ∧
    (g._handlePaddleHit M p d).sounds = g.sounds ++ [Sfx.hitPaddle] := by
  unfold Game._handlePaddleHit
  simp [h]

theorem Game.handlePaddleHit_of_none (M : MathOps K) (g : Game K) (p : Paddle K)
    (d : K) (h : Game.contact g.ball p d = none) :
    g._handlePaddleHit M p d = g := by
  unfold Game._handlePaddleHit
  simp [h]

end RampLemmas

/-- Claim C4: after every contact in `_handlePaddleHit` the ball speed is
`clamp(420 + 18 * hits, 420, 900) = min(420 + 18 * hits, 900)` for the
incremented hit count, lies in `[420, 900]`, is non-decreasing in the hit
count and equals 900 exactly when the hit count is at least 27. -/
theorem C4_speed_ramp {K : Type} [LinearOrderedField K] (M : MathOps K) (g : Game K)
    (p : Paddle K) (d yAt : K) (hc : Game.contact g.ball p d = some yAt) :
    (g._handlePaddleHit M p d).ball.hits = g.ball.hits + 1 ∧
    (g._handlePaddleHit M p d).ball.speed =
      clamp (CONFIG.ball.speed +
          ((g._handlePaddleHit M p d).ball.hits : K) * CONFIG.ball.speedUpPerHit)
        CONFIG.ball.speed CONFIG.ball.maxSpeed ∧
    (g._handlePaddleHit M p d).ball.speed =
      min (420 + 18 * ((g._handlePaddleHit M p d).ball.hits : K)) 900 ∧
    420 ≤ (g._handlePaddleHit M p d).ball.speed ∧
    (g._handlePaddleHit M p d).ball.speed ≤ 900 ∧
    (∀ m n : Nat, m ≤ n → (Game.rampSpeed m : K) ≤ Game.rampSpeed n) ∧
    ((g._handlePaddleHit M p d).ball.speed = 900 ↔
      27 ≤ (g._handlePaddleHit M p d).ball.hits) := by
  have hb := (Game.handlePaddleHit_of_contact M g p d yAt hc).1
  have hh : (g._handlePaddleHit M p d).ball.hits = g.ball.hits + 1 := by
    rw [hb]; rfl
  have hs : (g._handlePaddleHit M p d).ball.speed =
      Game.rampSpeed ((g._handlePaddleHit M p d).ball.hits) := by
    rw [hh, hb]; rfl
  have hm := clamp_mem
    (CONFIG.ball.speed + ((g._handlePaddleHit M p d).ball.hits : K) * CONFIG.ball.speedUpPerHit)
    (CONFIG.ball.speed : K) CONFIG.ball.maxSpeed
    (by unfold CONFIG.ball.speed CONFIG.ball.maxSpeed; norm_num)
  refine ⟨hh, hs, ?_, ?_, ?_, fun m n h => Game.rampSpeed_mono h, ?_⟩
  · rw [hs, Game.rampSpeed_eq]
  · rw [hs]; exact hm.1
  · rw [hs]; exact hm.2
  · rw [hs]; exact Game.rampSpeed_cap _

theorem Examples.flatBall_contact {K : Type} [LinearOrderedField K] :
    Game.contact (Examples.flatBall 55 (-420) : Ball K) (Paddle.new 40 225) 1 = some 225 := by
  norm_num [Game.contact, Game.sweep, circleRectHit, clamp, Paddle.rect, Paddle.new,
    Examples.flatBall, CONFIG.ball.r, CONFIG.paddle.w, CONFIG.paddle.h]

/-- Claim C4 at the first contact of a rally: one hit, speed 438 -/
theorem C4_speed_ramp_witness :
    Game.contact (Examples.stateWith Phase.play 0 0 (Examples.flatBall 55 (-420)) : Game ℝ).ball
      (Paddle.new 40 225) 1 = some 225 ∧
    ((Examples.stateWith Phase.play 0 0 (Examples.flatBall 55 (-420)) : Game ℝ)._handlePaddleHit
      realMath (Paddle.new 40 225) 1).ball.hits = 0 + 1 ∧
    ((Examples.stateWith Phase.play 0 0 (Examples.flatBall 55 (-420)) : Game ℝ)._handlePaddleHit
      realMath (Paddle.new 40 225) 1).ball.speed ≤ 900 :=
  ⟨Examples.flatBall_contact,
    (C4_speed_ramp realMath (Examples.stateWith Phase.play 0 0 (Examples.flatBall 55 (-420)))
      (Paddle.new 40 225) 1 225 Examples.flatBall_contact).1,
    (C4_speed_ramp realMath (Examples.stateWith Phase.play 0 0 (Examples.flatBall 55 (-420)))
      (Paddle.new 40 225) 1 225 Examples.flatBall_contact).2.2.2.2.1⟩

/-! ## Bounce angle and speed invariant over the reals -/

theorem Game.bounceOffset_mem {K : Type} [LinearOrderedField K] (yAt py : K) :
    -1 ≤ Game.bounceOffset yAt py ∧ Game.bounceOffset yAt py ≤ 1 :=
  clamp_mem _ _ _ (by norm_num)

theorem Game.bounceAngle_abs_le (yAt py : ℝ) :
    |Game.bounceAngle realMath yAt py| ≤ 55 * Real.pi / 180 := by
  have ho := Game.bounceOffset_mem yAt py
  have hpi := Real.pi_pos
  unfold Game.bounceAngle
  simp only [realMath, CONFIG.bounce.maxAngleDeg]
  rw [abs_le]
  constructor <;> nlinarith [ho.1, ho.2]

theorem Game.bounceAngle_cos_pos (yAt py : ℝ) :
    0 < Real.cos (Game.bounceAngle realMath yAt py) := by
  have h := abs_le.mp (Game.bounceAngle_abs_le yAt py)
  have hpi := Real.pi_pos
  exact Real.cos_pos_of_mem_Ioo ⟨by linarith [h.1], by linarith [h.2]⟩

/-- Claim C6: the contact offset lies in `[-1, 1]`, the bounce angle is at most
`55 * pi / 180` in absolute value, it is 0 for a contact at the paddle centre
and exactly `55 * pi / 180` in absolute value for a contact at or beyond a
paddle end. -/
theorem C6_bounce_angle (yAt py : ℝ) :
    -1 ≤ Game.bounceOffset yAt py ∧ Game.bounceOffset yAt py ≤ 1 ∧
    Game.bounceAngle realMath yAt py = Game.bounceOffset yAt py * (55 * Real.pi / 180) ∧
    |Game.bounceAngle realMath yAt py| ≤ 55 * Real.pi / 180 ∧
    Game.bounceAngle realMath py py = 0 ∧
    (CONFIG.paddle.h / 2 ≤ |yAt - py| →
      |Game.bounceAngle realMath yAt py| = 55 * Real.pi / 180) := by
  refine ⟨(Game.bounceOffset_mem yAt py).1, (Game.bounceOffset_mem yAt py).2, rfl,
    Game.bounceAngle_abs_le yAt py, ?_, ?_⟩
  · simp [Game.bounceAngle, Game.bounceOffset, clamp]
  · intro h
    have hpi := Real.pi_pos
    unfold CONFIG.paddle.h at h
    have hoff : |Game.bounceOffset yAt py| = 1 := by
      unfold Game.bounceOffset clamp CONFIG.paddle.h
      rcases le_abs'.mp h with h1 | h1
      · have : (yAt - py) / (90 / 2) ≤ -1 := by
          rw [div_le_iff₀ (by norm_num)]; linarith
        rw [min_eq_right (by linarith), max_eq_left this]
        norm_num
      · have : 1 ≤ (yAt - py) / (90 / 2) := by
          rw [le_div_iff₀ (by norm_num)]; linarith
        rw [min_eq_left this, max_eq_right (by norm_num)]
        norm_num
    unfold Game.bounceAngle
    simp only [realMath, CONFIG.bounce.maxAngleDeg]
    rw [abs_mul, hoff, one_mul, abs_of_pos (by positivity)]

/-- Claim C6 at a contact on the upper paddle end, 45 above the centre -/
theorem C6_bounce_angle_witness :
    (CONFIG.paddle.h / 2 : ℝ) ≤ |(180 : ℝ) - 225| ∧
    |Game.bounceAngle realMath 180 225| = 55 * Real.pi / 180 :=
  ⟨by norm_num [CONFIG.paddle.h, abs_of_neg],
    (C6_bounce_angle 180 225).2.2.2.2.2 (by norm_num [CONFIG.paddle.h, abs_of_neg])⟩

theorem Ball.update_speedInv {K : Type} [LinearOrderedField K] (b : Ball K) (dt : K)
    (h : b.speedInv) : (b.update dt).speedInv := by
  unfold Ball.speedInv at h ⊢
  unfold Ball.update
  simp only
  split_ifs <;> simp [h]

theorem Ball.reset_speedInv (b : Ball ℝ) (dir rnd : ℝ) (hdir : dir = 1 ∨ dir = -1) :
    (b.reset realMath dir rnd).speedInv := by
  unfold Ball.speedInv Ball.reset
  simp only [realMath]
  have h := Real.cos_sq_add_sin_sq (rnd * (6 / 10) - 3 / 10)
  rcases hdir with rfl | rfl <;> nlinarith [h]

theorem Game.hypot_pos (p : Paddle ℝ) (n : Nat) (d yAt : ℝ) (hd : d = 1 ∨ d = -1) :
    0 < realMath.hypot
      (realMath.cos (Game.bounceAngle realMath yAt p.y) * Game.rampSpeed n * d)
      (realMath.sin (Game.bounceAngle realMath yAt p.y) * Game.rampSpeed n +
        p.vy * CONFIG.bounce.spinFactor) := by
  have hc := Game.bounceAngle_cos_pos yAt p.y
  have hs : (0 : ℝ) < Game.rampSpeed n := Game.rampSpeed_pos n
  simp only [realMath]
  apply Real.sqrt_pos.mpr
  have hx : Real.cos (Game.bounceAngle realMath yAt p.y) * Game.rampSpeed n * d ≠ 0 := by
    rcases hd with rfl | rfl
    · have := mul_pos hc hs
      simp only [mul_one]
      exact this.ne'
    · have := mul_pos hc hs
      simp only [mul_neg, mul_one, ne_eq, neg_eq_zero]
      exact this.ne'
  have := mul_self_pos.mpr hx
  have h2 := mul_self_nonneg (Real.sin (Game.bounceAngle realMath yAt p.y) * Game.rampSpeed n +
        p.vy * CONFIG.bounce.spinFactor)
  simp only [realMath] at this h2 ⊢
  linarith

theorem Game.resolveHit_speedInv (b : Ball ℝ) (p : Paddle ℝ) (d yAt : ℝ)
    (hd : d = 1 ∨ d = -1) :
    (Game.resolveHit realMath b p d yAt).speedInv := by
  unfold Ball.speedInv
  have hpos := Game.hypot_pos p (b.hits + 1) d yAt hd
  have hs : (0 : ℝ) < Game.rampSpeed (b.hits + 1) := Game.rampSpeed_pos _
  unfold Game.resolveHit Game.hitMag
  simp only [if_neg hpos.ne']
  set vx := realMath.cos (Game.bounceAngle realMath yAt p.y) * Game.rampSpeed (b.hits + 1) * d
  set vy := realMath.sin (Game.bounceAngle realMath yAt p.y) * Game.rampSpeed (b.hits + 1) +
        p.vy * CONFIG.bounce.spinFactor
  set s : ℝ := Game.rampSpeed (b.hits + 1)
  have hm : realMath.hypot vx vy * realMath.hypot vx vy = vx * vx + vy * vy := by
    simp only [realMath]
    exact Real.mul_self_sqrt (by nlinarith [mul_self_nonneg vx, mul_self_nonneg vy])
  set m := realMath.hypot vx vy
  have hm0 : m ≠ 0 := hpos.ne'
  field_simp
  rw [hm]
  ring

/-- Claim C3: over the reals `vx^2 + vy^2 = speed^2` holds after
`Ball.reset(dir)` for `dir` in `{-1, +1}` and every launch angle, is preserved
by `Ball.update(dt)`, and holds after every contact resolved by
`_handlePaddleHit`, where the magnitude `Math.hypot(dirVx, dirVy)` is never
zero, so the fallback `|| b.speed` is not taken. -/
theorem C3_speed_invariant (g : Game ℝ) (b : Ball ℝ) (p : Paddle ℝ)
    (dir rnd dt d yAt : ℝ) (hdir : dir = 1 ∨ dir = -1) (hd : d = 1 ∨ d = -1) :
    (b.reset realMath dir rnd).speedInv ∧
    (b.speedInv → (b.update dt).speedInv) ∧
    (Game.resolveHit realMath b p d yAt).speedInv ∧
    realMath.hypot
      (realMath.cos (Game.bounceAngle realMath yAt p.y) * Game.rampSpeed (b.hits + 1) * d)
      (realMath.sin (Game.bounceAngle realMath yAt p.y) * Game.rampSpeed (b.hits + 1) +
        p.vy * CONFIG.bounce.spinFactor) ≠ 0 ∧
    (g.ball.speedInv → (g._handlePaddleHit realMath p d).ball.speedInv) := by
  refine ⟨Ball.reset_speedInv b dir rnd hdir, Ball.update_speedInv b dt,
    Game.resolveHit_speedInv b p d yAt hd, (Game.hypot_pos p (b.hits + 1) d yAt hd).ne', ?_⟩
  intro hg
  rw [(Game.handlePaddleHit_keeps realMath g p d).2.2.2.2.2.2.2.2.2.2.2.2.2.2.2]
  unfold Game.hitBall
  split
  · exact hg
  · exact Game.resolveHit_speedInv g.ball p d _ hd

/-- Claim C3 at a serve to the right and a contact on the left paddle -/
theorem C3_speed_invariant_witness :
    ((1 : ℝ) = 1 ∨ (1 : ℝ) = -1) ∧
    ((Examples.flatBall (55 : ℝ) (-420)).reset realMath 1 (1 / 2)).speedInv ∧
    (Game.resolveHit realMath (Examples.flatBall (55 : ℝ) (-420)) (Paddle.new 40 225) 1
      225).speedInv :=
  ⟨Or.inl rfl,
    (C3_speed_invariant (Examples.stateWith Phase.play 0 0 (Examples.flatBall 55 (-420)))
      (Examples.flatBall 55 (-420)) (Paddle.new 40 225) 1 (1 / 2) (1 / 60) 1 225
      (Or.inl rfl) (Or.inl rfl)).1,
    (C3_speed_invariant (Examples.stateWith Phase.play 0 0 (Examples.flatBall 55 (-420)))
      (Examples.flatBall 55 (-420)) (Paddle.new 40 225) 1 (1 / 2) (1 / 60) 1 225
      (Or.inl rfl) (Or.inl rfl)).2.2.1⟩

/-! ## Hit counter -/

section HitCount
variable {K : Type} [LinearOrderedField K]

theorem Ball.update_hits (b : Ball K) (dt : K) : (b.update dt).hits = b.hits := by
  unfold Ball.update
  simp only
  split_ifs <;> rfl

theorem Game.hitBall_hits (M : MathOps K) (b : Ball K) (p : Paddle K) (d : K) :
    b.hits ≤ (Game.hitBall M b p d).hits ∧ (Game.hitBall M b p d).hits ≤ b.hits + 1 := by
  unfold Game.hitBall
  split
  · exact ⟨le_rfl, Nat.le_succ _⟩
  · exact ⟨Nat.le_succ _, le_rfl⟩

theorem Game.tickScore_ball [FloorRing K] (M : MathOps K) (g : Game K) (rnd : K) :
    (Game.tickScore M g rnd).ball = g.ball ∨
    (Game.tickScore M g rnd).ball = g.ball.reset M 1 rnd ∨
    (Game.tickScore M g rnd).ball = g.ball.reset M (-1) rnd := by
  unfold Game.tickScore
  simp only
  split_ifs
  · split
    · exact Or.inl rfl
    · exact Or.inr (Or.inl rfl)
  · split
    · exact Or.inl rfl
    · exact Or.inr (Or.inr rfl)
  · exact Or.inl rfl

theorem Game.rally_hits [FloorRing K] (M : MathOps K) (g : Game K) (dt : K) :
    g.ball.hits ≤ (Game.rally M g dt).ball.hits := by
  rw [Game.rally_ball]
  refine le_trans ?_ (Game.hitBall_hits M _ _ _).1
  refine le_trans ?_ (Game.hitBall_hits M _ _ _).1
  split_ifs
  · rw [Ball.update_hits]
  · exact le_rfl

theorem Game.update_ball_cases [FloorRing K] (M : MathOps K) (g : Game K) (dt rnd : K) :
    g.ball.hits ≤ (g.update M dt rnd).ball.hits ∨
    (g.update M dt rnd).ball = (Game.rally M (g.tickClock dt) dt).ball.reset M 1 rnd ∨
    (g.update M dt rnd).ball = (Game.rally M (g.tickClock dt) dt).ball.reset M (-1) rnd := by
  by_cases hi : g.state = Phase.pause ∨ g.state = Phase.menu ∨ g.state = Phase.over
  · rw [Game.update_of_idle M g dt rnd hi]
    exact Or.inl le_rfl
  · have hl : g.state = Phase.serve ∨ g.state = Phase.play := by
      cases hs : g.state <;> simp_all
    by_cases he : g.matchTimeLeft - dt ≤ 0
    · rw [Game.update_of_expired M g dt rnd hl he]
      left
      simp only [Game._gameOver, Game.tickClock_keeps]
      exact le_rfl
    · rw [Game.update_of_live M g dt rnd hl (not_le.mp he)]
      rcases Game.tickScore_ball M (Game.rally M (g.tickClock dt) dt) rnd with h | h | h
      · left
        rw [h]
        have := Game.rally_hits M (g.tickClock dt) dt
        simpa only [Game.tickClock_keeps] using this
      · exact Or.inr (Or.inl h)
      · exact Or.inr (Or.inr h)

theorem Game.frame_ball_cases [FloorRing K] (M : MathOps K) (g : Game K) (t : Tick K) :
    g.ball.hits ≤ (g.frame M t).ball.hits ∨
    ∃ b dir, (g.frame M t).ball = Ball.reset M b dir t.rnd := by
  unfold Game.frame
  rcases Game.update_ball_cases M { g with input := t.input } t.dt t.rnd with h | h | h
  · exact Or.inl h
  · exact Or.inr ⟨_, _, h⟩
  · exact Or.inr ⟨_, _, h⟩

theorem Game.run_append [FloorRing K] (M : MathOps K) (g : Game K) (ts : List (Tick K))
    (t : Tick K) : g.run M (ts ++ [t]) = (g.run M ts).frame M t := by
  unfold Game.run
  rw [List.foldl_append]
  rfl

theorem Game.run_hits [FloorRing K] (M : MathOps K) (g : Game K) (ts : List (Tick K)) :
    g.ball.hits ≤ (g.run M ts).ball.hits ∨
    ∃ ts1 t ts2 b dir, ts = ts1 ++ t :: ts2 ∧
      ((g.run M ts1).frame M t).ball = Ball.reset M b dir t.rnd := by
  induction ts using List.reverseRecOn with
  | nil => exact Or.inl le_rfl
  | append_singleton ts t ih =>
    rcases ih with ih | ⟨ts1, t1, ts2, b, dir, hts, hb⟩
    · rcases Game.frame_ball_cases M (g.run M ts) t with h | ⟨b, dir, h⟩
      · left
        rw [Game.run_append]
        exact le_trans ih h
      · exact Or.inr ⟨ts, t, [], b, dir, rfl, h⟩
    · refine Or.inr ⟨ts1, t1, ts2 ++ [t], b, dir, ?_, hb⟩
      rw [hts, List.append_assoc, List.cons_append]

end HitCount

/-- Claim C5: `Ball.reset` sets `hits` to 0; a `_handlePaddleHit` call that
registers a contact adds exactly 1; `Ball.update` and a call without contact
leave `hits` unchanged; on every `update` tick `hits` does not decrease unless
the tick resets the ball, and over a run of frames `hits` does not decrease
unless one of the frames resets the ball. -/
theorem C5_hit_counter {K : Type} [LinearOrderedField K] [FloorRing K] (M : MathOps K)
    (g : Game K) (b : Ball K) (p : Paddle K) (dir d dt rnd : K) (ts : List (Tick K)) :
    (b.reset M dir rnd).hits = 0 ∧
    (∀ yAt, Game.contact g.ball p d = some yAt →
      (g._handlePaddleHit M p d).ball.hits = g.ball.hits + 1) ∧
    (Game.contact g.ball p d = none → (g._handlePaddleHit M p d).ball.hits = g.ball.hits) ∧
    (b.update dt).hits = b.hits ∧
    (g.ball.hits ≤ (g.update M dt rnd).ball.hits ∨
      (g.update M dt rnd).ball = (Game.rally M (g.tickClock dt) dt).ball.reset M 1 rnd ∨
      (g.update M dt rnd).ball = (Game.rally M (g.tickClock dt) dt).ball.reset M (-1) rnd) ∧
    (g.ball.hits ≤ (g.run M ts).ball.hits ∨
      ∃ ts1 t ts2 b0 dir0, ts = ts1 ++ t :: ts2 ∧
        ((g.run M ts1).frame M t).ball = Ball.reset M b0 dir0 t.rnd) := by
  refine ⟨rfl, ?_, ?_, Ball.update_hits b dt, Game.update_ball_cases M g dt rnd,
    Game.run_hits M g ts⟩
  · intro yAt h
    rw [(Game.handlePaddleHit_of_contact M g p d yAt h).1]
    rfl
  · intro h
    rw [Game.handlePaddleHit_of_none M g p d h]

/-- Claim C5 at a contact on the left paddle and at a ball out of reach -/
theorem C5_hit_counter_witness :
    Game.contact (Examples.stateWith Phase.play 0 0 (Examples.flatBall 55 (-420)) : Game ℝ).ball
      (Paddle.new 40 225) 1 = some 225 ∧
    ((Examples.stateWith Phase.play 0 0 (Examples.flatBall 55 (-420)) : Game ℝ)._handlePaddleHit
      realMath (Paddle.new 40 225) 1).ball.hits = 0 + 1 ∧
    Game.contact (Examples.stateWith Phase.play 0 0 (Examples.flatBall 55 (-420)) : Game ℝ).ball
      (Paddle.new 760 225) 1 = none ∧
    ((Examples.stateWith Phase.play 0 0 (Examples.flatBall 55 (-420)) : Game ℝ)._handlePaddleHit
      realMath (Paddle.new 760 225) 1).ball.hits = 0 := by
  have hn : Game.contact
      (Examples.stateWith Phase.play 0 0 (Examples.flatBall 55 (-420)) : Game ℝ).ball
      (Paddle.new 760 225) 1 = none := by
    norm_num [Game.contact, Game.sweep, circleRectHit, clamp, Paddle.rect, Paddle.new,
      Examples.flatBall, Examples.stateWith, CONFIG.ball.r, CONFIG.paddle.w, CONFIG.paddle.h]
  exact ⟨Examples.flatBall_contact,
    (C5_hit_counter realMath (Examples.stateWith Phase.play 0 0 (Examples.flatBall 55 (-420)))
      (Examples.flatBall 55 (-420)) (Paddle.new 40 225) 1 1 (1 / 60) (1 / 2) []).2.1 225
      Examples.flatBall_contact,
    hn,
    (C5_hit_counter realMath (Examples.stateWith Phase.play 0 0 (Examples.flatBall 55 (-420)))
      (Examples.flatBall 55 (-420)) (Paddle.new 760 225) 1 1 (1 / 60) (1 / 2) []).2.2.1 hn⟩

/-! ## Paddle bounds -/

section PaddleBounds
variable {K : Type} [LinearOrderedField K]

theorem Paddle.update_inBounds (p : Paddle K) (dt : K) : (p.update dt).inBounds := by
  unfold Paddle.inBounds Paddle.update
  exact clamp_mem _ _ _ (by unfold CONFIG.paddle.h CONFIG.world.h; norm_num)

theorem clamp_step (dy m : K) (hm : 0 ≤ m) :
    min 0 dy ≤ clamp dy (-m) m ∧ clamp dy (-m) m ≤ max 0 dy := by
  unfold clamp
  rcases le_total 0 dy with h | h
  · rw [min_eq_left h, max_eq_right h, max_eq_right (by
      have : 0 ≤ min m dy := le_min hm h
      linarith)]
    exact ⟨le_min hm h, min_le_right _ _⟩
  · rw [min_eq_right h, max_eq_left h, min_eq_right (by linarith)]
    exact ⟨le_max_right _ _, max_le (by linarith) h⟩

theorem Game.dragPaddle_inBounds (p : Paddle K) (py dt : K) (hdt : 0 ≤ dt)
    (hp : p.inBounds) : (Game.dragPaddle p py dt).inBounds := by
  have ht := clamp_mem py (CONFIG.paddle.h / 2 : K) (CONFIG.world.h - CONFIG.paddle.h / 2)
    (by unfold CONFIG.paddle.h CONFIG.world.h; norm_num)
  have hm : (0 : K) ≤ CONFIG.paddle.speed * dt :=
    mul_nonneg (by unfold CONFIG.paddle.speed; norm_num) hdt
  have hs := clamp_step
    (clamp py (CONFIG.paddle.h / 2) (CONFIG.world.h - CONFIG.paddle.h / 2) - p.y)
    (CONFIG.paddle.speed * dt) hm
  unfold Paddle.inBounds at hp ⊢
  unfold Game.dragPaddle
  simp only
  constructor
  · rcases le_total 0
      (clamp py (CONFIG.paddle.h / 2) (CONFIG.world.h - CONFIG.paddle.h / 2) - p.y) with h | h
    · rw [min_eq_left h] at hs
      linarith [hs.1, hp.1]
    · rw [min_eq_right h] at hs
      linarith [hs.1, ht.1]
  · rcases le_total 0
      (clamp py (CONFIG.paddle.h / 2) (CONFIG.world.h - CONFIG.paddle.h / 2) - p.y) with h | h
    · rw [max_eq_right h] at hs
      linarith [hs.2, ht.2]
    · rw [max_eq_left h] at hs
      linarith [hs.2, hp.2]

theorem Game.leftPaddleStep_inBounds (i : Input K) (p : Paddle K) (dt : K) (hdt : 0 ≤ dt)
    (hp : p.inBounds) : (Game.leftPaddleStep i p dt).inBounds := by
  unfold Game.leftPaddleStep
  split
  · exact Game.dragPaddle_inBounds p _ dt hdt hp
  · exact Paddle.update_inBounds _ dt

theorem Game.rightPaddleStep_inBounds (tp : Bool) (i : Input K) (p : Paddle K) (by0 dt : K) :
    (Game.rightPaddleStep tp i p by0 dt).inBounds := by
  unfold Game.rightPaddleStep
  split_ifs
  · split <;> exact Paddle.update_inBounds _ dt
  · exact Paddle.update_inBounds _ dt

theorem Game.tickScore_paddles [FloorRing K] (M : MathOps K) (g : Game K) (rnd : K) :
    (Game.tickScore M g rnd).left = g.left ∧ (Game.tickScore M g rnd).right = g.right := by
  unfold Game.tickScore
  simp only
  split_ifs
  · split <;> exact ⟨rfl, rfl⟩
  · split <;> exact ⟨rfl, rfl⟩
  · exact ⟨rfl, rfl⟩

theorem Game.update_paddles [FloorRing K] (M : MathOps K) (g : Game K) (dt rnd : K) :
    ((g.update M dt rnd).left = g.left ∧ (g.update M dt rnd).right = g.right) ∨
    ((g.update M dt rnd).left = Game.leftPaddleStep g.input g.left dt ∧
      (g.update M dt rnd).right =
        Game.rightPaddleStep g.twoPlayer g.input g.right g.ball.y dt) := by
  by_cases hi : g.state = Phase.pause ∨ g.state = Phase.menu ∨ g.state = Phase.over
  · rw [Game.update_of_idle M g dt rnd hi]
    exact Or.inl ⟨rfl, rfl⟩
  · have hl : g.state = Phase.serve ∨ g.state = Phase.play := by
      cases hs : g.state <;> simp_all
    by_cases he : g.matchTimeLeft - dt ≤ 0
    · rw [Game.update_of_expired M g dt rnd hl he]
      left
      simp only [Game._gameOver, Game.tickClock_keeps, and_self]
    · rw [Game.update_of_live M g dt rnd hl (not_le.mp he)]
      right
      simp only [Game.tickScore_paddles, Game.rally_keeps, Game.tickClock_keeps, and_self]

end PaddleBounds

/-- Claim C7: for every `update` tick with `dt >= 0`, whatever the control
mode, the input and the ball position, paddles that are in
`[paddleHeight/2, worldHeight - paddleHeight/2] = [45, 405]` before the tick
are in it after the tick; the constructor and `restart` place both at 225. -/
theorem C7_paddle_bounds {K : Type} [LinearOrderedField K] [FloorRing K] (M : MathOps K)
    (g : Game K) (dt rnd r1 r2 r3 r4 : K) (hdt : 0 ≤ dt)
    (hl : g.left.inBounds) (hr : g.right.inBounds) :
    (g.update M dt rnd).left.inBounds ∧ (g.update M dt rnd).right.inBounds ∧
    ((CONFIG.paddle.h / 2 : K) = 45 ∧ (CONFIG.world.h - CONFIG.paddle.h / 2 : K) = 405) ∧
    (Game.new M r1 r2 r3).left.y = 225 ∧ (Game.new M r1 r2 r3).right.y = 225 ∧
    (g.restart M r1 r2 r3 r4).left.y = 225 ∧ (g.restart M r1 r2 r3 r4).right.y = 225 ∧
    (Game.new M r1 r2 r3).left.inBounds ∧ (Game.new M r1 r2 r3).right.inBounds ∧
    (g.restart M r1 r2 r3 r4).left.inBounds ∧ (g.restart M r1 r2 r3 r4).right.inBounds := by
  have h225 : (CONFIG.world.h / 2 : K) = 225 := by unfold CONFIG.world.h; norm_num
  have hb : ∀ p : Paddle K, p.y = 225 → p.inBounds := by
    intro p hp
    unfold Paddle.inBounds CONFIG.paddle.h CONFIG.world.h
    rw [hp]
    norm_num
  have hn1 : (Game.new M r1 r2 r3).left.y = 225 := h225
  have hn2 : (Game.new M r1 r2 r3).right.y = 225 := h225
  have hr1 : (g.restart M r1 r2 r3 r4).left.y = 225 := h225
  have hr2 : (g.restart M r1 r2 r3 r4).right.y = 225 := h225
  refine ⟨?_, ?_, ⟨by unfold CONFIG.paddle.h; norm_num,
    by unfold CONFIG.paddle.h CONFIG.world.h; norm_num⟩, hn1, hn2, hr1, hr2,
    hb _ hn1, hb _ hn2, hb _ hr1, hb _ hr2⟩
  · rcases Game.update_paddles M g dt rnd with h | h
    · rw [h.1]; exact hl
    · rw [h.1]; exact Game.leftPaddleStep_inBounds _ _ dt hdt hl
  · rcases Game.update_paddles M g dt rnd with h | h
    · rw [h.2]; exact hr
    · rw [h.2]; exact Game.rightPaddleStep_inBounds _ _ _ _ dt

theorem Examples.stateWith_inBounds {K : Type} [LinearOrderedField K] (st : Phase)
    (l r : Nat) (b : Ball K) :
    (Examples.stateWith st l r b).left.inBounds ∧ (Examples.stateWith st l r b).right.inBounds := by
  norm_num [Paddle.inBounds, Examples.stateWith, Paddle.new, CONFIG.paddle.h, CONFIG.world.h]

/-- Claim C7 at a tick of 1/60 s in play with both paddles at mid height -/
theorem C7_paddle_bounds_witness :
    (0 : ℝ) ≤ 1 / 60 ∧
    (Examples.stateWith Phase.play 0 0 (Examples.flatBall 55 (-420)) : Game ℝ).left.inBounds ∧
    (Examples.stateWith Phase.play 0 0 (Examples.flatBall 55 (-420)) : Game ℝ).right.inBounds ∧
    ((Examples.stateWith Phase.play 0 0 (Examples.flatBall 55 (-420)) : Game ℝ).update
      realMath (1 / 60) (1 / 2)).left.inBounds ∧
    ((Examples.stateWith Phase.play 0 0 (Examples.flatBall 55 (-420)) : Game ℝ).update
      realMath (1 / 60) (1 / 2)).right.inBounds :=
  ⟨by norm_num, (Examples.stateWith_inBounds _ _ _ _).1, (Examples.stateWith_inBounds _ _ _ _).2,
    (C7_paddle_bounds realMath (Examples.stateWith Phase.play 0 0 (Examples.flatBall 55 (-420)))
      (1 / 60) (1 / 2) 0 0 0 0 (by norm_num) (Examples.stateWith_inBounds _ _ _ _).1
      (Examples.stateWith_inBounds _ _ _ _).2).1,
    (C7_paddle_bounds realMath (Examples.stateWith Phase.play 0 0 (Examples.flatBall 55 (-420)))
      (1 / 60) (1 / 2) 0 0 0 0 (by norm_num) (Examples.stateWith_inBounds _ _ _ _).1
      (Examples.stateWith_inBounds _ _ _ _).2).2.1⟩

/-! ## Swept test -/

section Swept
variable {K : Type} [LinearOrderedField K]

theorem Game.sweep_left (b : Ball K) (p : Paddle K) (d : K) (hd : 0 < d)
    (h1 : b.prevX - CONFIG.ball.r > p.rect.x + p.rect.w)
    (h2 : b.x - CONFIG.ball.r ≤ p.rect.x + p.rect.w) :
    Game.sweep b p d =
      (true, (p.rect.x + p.rect.w - (b.prevX - CONFIG.ball.r)) /
        (b.x - CONFIG.ball.r - (b.prevX - CONFIG.ball.r))) := by
  unfold Game.sweep
  simp only [if_neg (not_lt.mpr hd.le)]
  rw [if_pos ⟨h1, h2⟩]

theorem Game.sweep_right (b : Ball K) (p : Paddle K) (d : K) (hd : d < 0)
    (h1 : b.prevX + CONFIG.ball.r < p.rect.x)
    (h2 : b.x + CONFIG.ball.r ≥ p.rect.x) :
    Game.sweep b p d =
      (true, (p.rect.x - (b.prevX + CONFIG.ball.r)) /
        (b.x + CONFIG.ball.r - (b.prevX + CONFIG.ball.r))) := by
  unfold Game.sweep
  simp only [if_pos hd]
  rw [if_pos ⟨h1, h2⟩]

theorem frac_mem (a b : K) (ha : 0 < a) (hab : a ≤ b) : 0 < a / b ∧ a / b ≤ 1 :=
  ⟨div_pos ha (lt_of_lt_of_le ha hab), (div_le_one (lt_of_lt_of_le ha hab)).mpr hab⟩

end Swept

/-- Claim C8: for the left paddle (`towardDir = +1`) and a ball with `vx < 0`
whose leading edge `x - r` crossed the plane `rect.x + rect.w` in the tick,
the crossing fraction `tHit` has a nonzero divisor and lies in `(0, 1]`, and
if the interpolated height at `tHit` lies in `[rect.y, rect.y + rect.h]` a
contact is registered at that height wherever the current `x` is. The
mirrored statement holds for the right paddle (`towardDir = -1`, `vx > 0`,
edge `x + r`, plane `rect.x`). -/
theorem C8_swept_contact {K : Type} [LinearOrderedField K] (M : MathOps K) (g : Game K)
    (p : Paddle K) :
    (g.ball.vx < 0 →
      g.ball.prevX - CONFIG.ball.r > p.rect.x + p.rect.w →
      g.ball.x - CONFIG.ball.r ≤ p.rect.x + p.rect.w →
      (Game.sweep g.ball p 1).1 = true ∧
      (Game.sweep g.ball p 1).2 =
        (p.rect.x + p.rect.w - (g.ball.prevX - CONFIG.ball.r)) /
          (g.ball.x - CONFIG.ball.r - (g.ball.prevX - CONFIG.ball.r)) ∧
      g.ball.x - CONFIG.ball.r - (g.ball.prevX - CONFIG.ball.r) ≠ 0 ∧
      0 < (Game.sweep g.ball p 1).2 ∧ (Game.sweep g.ball p 1).2 ≤ 1 ∧
      (p.rect.y ≤ g.ball.prevY + (g.ball.y - g.ball.prevY) * (Game.sweep g.ball p 1).2 →
        g.ball.prevY + (g.ball.y - g.ball.prevY) * (Game.sweep g.ball p 1).2
          ≤ p.rect.y + p.rect.h →
        Game.contact g.ball p 1 =
          some (g.ball.prevY + (g.ball.y - g.ball.prevY) * (Game.sweep g.ball p 1).2) ∧
        (g._handlePaddleHit M p 1).ball.hits = g.ball.hits + 1 ∧
        (g._handlePaddleHit M p 1).sounds = g.sounds ++ [Sfx.hitPaddle])) ∧
    (0 < g.ball.vx →
      g.ball.prevX + CONFIG.ball.r < p.rect.x →
      g.ball.x + CONFIG.ball.r ≥ p.rect.x →
      (Game.sweep g.ball p (-1)).1 = true ∧
      (Game.sweep g.ball p (-1)).2 =
        (p.rect.x - (g.ball.prevX + CONFIG.ball.r)) /
          (g.ball.x + CONFIG.ball.r - (g.ball.prevX + CONFIG.ball.r)) ∧
      g.ball.x + CONFIG.ball.r - (g.ball.prevX + CONFIG.ball.r) ≠ 0 ∧
      0 < (Game.sweep g.ball p (-1)).2 ∧ (Game.sweep g.ball p (-1)).2 ≤ 1 ∧
      (p.rect.y ≤ g.ball.prevY + (g.ball.y - g.ball.prevY) * (Game.sweep g.ball p (-1)).2 →
        g.ball.prevY + (g.ball.y - g.ball.prevY) * (Game.sweep g.ball p (-1)).2
          ≤ p.rect.y + p.rect.h →
        Game.contact g.ball p (-1) =
          some (g.ball.prevY + (g.ball.y - g.ball.prevY) * (Game.sweep g.ball p (-1)).2) ∧
        (g._handlePaddleHit M p (-1)).ball.hits = g.ball.hits + 1 ∧
        (g._handlePaddleHit M p (-1)).sounds = g.sounds ++ [Sfx.hitPaddle])) := by
  constructor
  · intro hvx h1 h2
    have hsw := Game.sweep_left g.ball p 1 one_pos h1 h2
    have hfr := frac_mem (g.ball.prevX - CONFIG.ball.r - (p.rect.x + p.rect.w))
      (g.ball.prevX - CONFIG.ball.r - (g.ball.x - CONFIG.ball.r)) (by linarith) (by linarith)
    have heq : (p.rect.x + p.rect.w - (g.ball.prevX - CONFIG.ball.r)) /
        (g.ball.x - CONFIG.ball.r - (g.ball.prevX - CONFIG.ball.r)) =
        (g.ball.prevX - CONFIG.ball.r - (p.rect.x + p.rect.w)) /
        (g.ball.prevX - CONFIG.ball.r - (g.ball.x - CONFIG.ball.r)) := by
      rw [← neg_sub (g.ball.prevX - CONFIG.ball.r) (p.rect.x + p.rect.w),
        ← neg_sub (g.ball.prevX - CONFIG.ball.r) (g.ball.x - CONFIG.ball.r), neg_div_neg_eq]
    have ht : 0 < (Game.sweep g.ball p 1).2 ∧ (Game.sweep g.ball p 1).2 ≤ 1 := by
      rw [hsw]
      simp only
      rw [heq]
      exact hfr
    refine ⟨by rw [hsw], by rw [hsw], by intro h0; linarith, ht.1, ht.2, ?_⟩
    intro hy1 hy2
    have hc : Game.contact g.ball p 1 =
        some (g.ball.prevY + (g.ball.y - g.ball.prevY) * (Game.sweep g.ball p 1).2) := by
      unfold Game.contact
      simp only
      rw [if_neg (by intro h; exact absurd h.2 (not_le.mpr hvx)),
        if_neg (by intro h; exact absurd h.1 (by norm_num)),
        if_pos (by rw [hsw]), clamp_of_mem _ _ _ ht.1.le ht.2, if_pos ⟨hy1, hy2⟩]
    have hh := Game.handlePaddleHit_of_contact M g p 1 _ hc
    refine ⟨hc, ?_, hh.2⟩
    rw [hh.1]
    rfl
  · intro hvx h1 h2
    have hsw := Game.sweep_right g.ball p (-1) (by norm_num) h1 h2
    have hfr := frac_mem (p.rect.x - (g.ball.prevX + CONFIG.ball.r))
      (g.ball.x + CONFIG.ball.r - (g.ball.prevX + CONFIG.ball.r)) (by linarith) (by linarith)
    have ht : 0 < (Game.sweep g.ball p (-1)).2 ∧ (Game.sweep g.ball p (-1)).2 ≤ 1 := by
      rw [hsw]
      exact hfr
    refine ⟨by rw [hsw], by rw [hsw], by intro h0; linarith, ht.1, ht.2, ?_⟩
    intro hy1 hy2
    have hc : Game.contact g.ball p (-1) =
        some (g.ball.prevY + (g.ball.y - g.ball.prevY) * (Game.sweep g.ball p (-1)).2) := by
      unfold Game.contact
      simp only
      rw [if_neg (by intro h; exact absurd h.1 (by norm_num)),
        if_neg (by intro h; exact absurd h.2 (not_le.mpr hvx)),
        if_pos (by rw [hsw]), clamp_of_mem _ _ _ ht.1.le ht.2, if_pos ⟨hy1, hy2⟩]
    have hh := Game.handlePaddleHit_of_contact M g p (-1) _ hc
    refine ⟨hc, ?_, hh.2⟩
    rw [hh.1]
    rfl

theorem Examples.tunnelBall_sweep {K : Type} [LinearOrderedField K] :
    Game.sweep (Examples.tunnelBall : Ball K) (Paddle.new 40 225) 1 = (true, 6 / 25) := by
  norm_num [Game.sweep, Examples.tunnelBall, Paddle.rect, Paddle.new, CONFIG.ball.r,
    CONFIG.paddle.w, CONFIG.paddle.h]

/-- Claim C8 at a ball that jumped from `x = 70` to `x = 20` over the left
paddle: the static test misses it and the swept test registers the contact -/
theorem C8_swept_contact_witness :
    (Examples.stateWith Phase.play 0 0 Examples.tunnelBall : Game ℝ).ball.vx < 0 ∧
    circleRectHit (Examples.tunnelBall : Ball ℝ).x (Examples.tunnelBall : Ball ℝ).y
      CONFIG.ball.r (Paddle.new (40 : ℝ) 225).rect = false ∧
    ((Examples.stateWith Phase.play 0 0 Examples.tunnelBall : Game ℝ)._handlePaddleHit
      realMath (Paddle.new 40 225) 1).ball.hits = 27 + 1 := by
  have hv : (Examples.stateWith Phase.play 0 0 Examples.tunnelBall : Game ℝ).ball.vx < 0 := by
    norm_num [Examples.stateWith, Examples.tunnelBall]
  have hs : Game.sweep (Examples.stateWith Phase.play 0 0 Examples.tunnelBall : Game ℝ).ball
      (Paddle.new 40 225) 1 = (true, 6 / 25) := Examples.tunnelBall_sweep
  refine ⟨hv, ?_, ?_⟩
  · norm_num [circleRectHit, clamp, Examples.tunnelBall, Paddle.rect, Paddle.new,
      CONFIG.ball.r, CONFIG.paddle.w, CONFIG.paddle.h]
  · exact (((C8_swept_contact realMath
      (Examples.stateWith Phase.play 0 0 Examples.tunnelBall : Game ℝ) (Paddle.new 40 225)).1 hv
      (by norm_num [Examples.stateWith, Examples.tunnelBall, Paddle.rect, Paddle.new,
        CONFIG.ball.r, CONFIG.paddle.w])
      (by norm_num [Examples.stateWith, Examples.tunnelBall, Paddle.rect, Paddle.new,
        CONFIG.ball.r, CONFIG.paddle.w])).2.2.2.2.2
      (by rw [hs]; norm_num [Examples.stateWith, Examples.tunnelBall, Paddle.rect, Paddle.new,
        CONFIG.paddle.h])
      (by rw [hs]; norm_num [Examples.stateWith, Examples.tunnelBall, Paddle.rect, Paddle.new,
        CONFIG.paddle.h])).2.1

/-- Claim C9: a ball with `prevX = 30`, `x = 55`, radius 10, `vx < 0` and `y`
within the vertical extent of the left paddle at `x = 40`, whose right face
is at 48, registers a contact in `_handlePaddleHit(left, +1)`: `hits`
increases by 1 and the ball is moved to `x = 48 + 10 + 0.001`. -/
theorem C9_swept_case {K : Type} [LinearOrderedField K] (M : MathOps K) (g : Game K)
    (hprev : g.ball.prevX = 30) (hx : g.ball.x = 55) (hvx : g.ball.vx < 0)
    (hpx : g.left.x = 40)
    (hy : g.left.rect.y ≤ g.ball.y ∧ g.ball.y ≤ g.left.rect.y + g.left.rect.h) :
    g.left.rect.x + g.left.rect.w = 48 ∧
    (CONFIG.ball.r : K) = 10 ∧
    Game.contact g.ball g.left 1 = some g.ball.y ∧
    (g._handlePaddleHit M g.left 1).ball.hits = g.ball.hits + 1 ∧
    (g._handlePaddleHit M g.left 1).ball.x = 48 + 10 + 1 / 1000 := by
  have hface : g.left.rect.x + g.left.rect.w = 48 := by
    simp only [Paddle.rect, hpx, CONFIG.paddle.w]
    norm_num
  have hrx : g.left.rect.x = 32 := by
    simp only [Paddle.rect, hpx, CONFIG.paddle.w]
    norm_num
  have hsw : Game.sweep g.ball g.left 1 = (false, 1) := by
    unfold Game.sweep
    simp only [hface, hprev, hx, CONFIG.ball.r]
    norm_num
  have hhit : circleRectHit g.ball.x g.ball.y CONFIG.ball.r g.left.rect = true := by
    have hcx : clamp g.ball.x g.left.rect.x (g.left.rect.x + g.left.rect.w) = 48 := by
      rw [hface, hrx, hx]
      norm_num [clamp]
    have hcy : clamp g.ball.y g.left.rect.y (g.left.rect.y + g.left.rect.h) = g.ball.y :=
      clamp_of_mem _ _ _ hy.1 hy.2
    unfold circleRectHit
    simp only [hcx, hcy]
    rw [hx]
    norm_num [CONFIG.ball.r]
  have hc : Game.contact g.ball g.left 1 = some g.ball.y := by
    unfold Game.contact
    simp only
    rw [if_neg (by intro h; exact absurd h.2 (not_le.mpr hvx)),
      if_neg (by intro h; exact absurd h.1 (by norm_num)), hsw]
    simp only [hhit, if_true]
    rfl
  have hh := (Game.handlePaddleHit_of_contact M g g.left 1 _ hc).1
  refine ⟨hface, rfl, hc, by rw [hh]; rfl, ?_⟩
  rw [hh]
  unfold Game.resolveHit
  simp only [if_pos (one_pos : (0 : K) < 1), hface, CONFIG.ball.r]

/-- Claim C9 at a ball at mid height against the left paddle at mid height -/
theorem C9_swept_case_witness :
    (Examples.stateWith Phase.play 0 0 Examples.sweptBall : Game ℝ).ball.prevX = 30 ∧
    (Examples.stateWith Phase.play 0 0 Examples.sweptBall : Game ℝ).ball.x = 55 ∧
    (Examples.stateWith Phase.play 0 0 Examples.sweptBall : Game ℝ).ball.vx < 0 ∧
    ((Examples.stateWith Phase.play 0 0 Examples.sweptBall : Game ℝ)._handlePaddleHit realMath
      (Examples.stateWith Phase.play 0 0 Examples.sweptBall : Game ℝ).left 1).ball.hits
      = 0 + 1 ∧
    ((Examples.stateWith Phase.play 0 0 Examples.sweptBall : Game ℝ)._handlePaddleHit realMath
      (Examples.stateWith Phase.play 0 0 Examples.sweptBall : Game ℝ).left 1).ball.x
      = 48 + 10 + 1 / 1000 := by
  have hv : (Examples.stateWith Phase.play 0 0 Examples.sweptBall : Game ℝ).ball.vx < 0 := by
    norm_num [Examples.stateWith, Examples.sweptBall]
  have h := C9_swept_case realMath (Examples.stateWith Phase.play 0 0 Examples.sweptBall : Game ℝ)
    rfl rfl hv rfl
    (by norm_num [Examples.stateWith, Examples.sweptBall, Paddle.rect, Paddle.new,
      CONFIG.paddle.h])
  exact ⟨rfl, rfl, hv, h.2.2.2.1, h.2.2.2.2⟩

/-! ## Pause and resume -/

section Pause
variable {K : Type} [LinearOrderedField K] [FloorRing K]

theorem Game.updates_of_pause (M : MathOps K) (g : Game K) (ds : List (K × K))
    (h : g.state = Phase.pause) : g.updates M ds = g := by
  unfold Game.updates
  induction ds with
  | nil => rfl
  | cons d ds ih =>
    rw [List.foldl_cons, Game.update_of_idle M g d.1 d.2 (Or.inl h)]
    exact ih

theorem Game.frame_of_pause (M : MathOps K) (g : Game K) (t : Tick K)
    (h : g.state = Phase.pause) : g.frame M t = { g with input := t.input } := by
  unfold Game.frame
  exact Game.update_of_idle M _ t.dt t.rnd (Or.inl h)

theorem Game.run_of_pause (M : MathOps K) (g : Game K) (ts : List (Tick K))
    (h : g.state = Phase.pause) :
    ∃ i, g.run M ts = { g with input := i } := by
  induction ts using List.reverseRecOn with
  | nil => exact ⟨g.input, rfl⟩
  | append_singleton ts t ih =>
    obtain ⟨i, hi⟩ := ih
    rw [Game.run_append, hi]
    exact ⟨t.input, Game.frame_of_pause M _ t h⟩

end Pause

theorem Game.togglePause_live {K : Type} (g : Game K)
    (h : g.state = Phase.play ∨ g.state = Phase.serve) :
    g._togglePause =
      { g with
        prevState := some g.state
        state := Phase.pause
        overlayHidden := false
        title := "Paused" } := by
  unfold Game._togglePause
  rw [if_pos h]

/-- Claim C10: from a state in phase serve or play, `_togglePause`, then any
number of `update(dt)` calls with arbitrary `dt`, then `_togglePause` again
restores the phase that was paused and leaves `serveRemaining`,
`matchTimeLeft`, both scores, both paddles and the ball unchanged; the
`update` calls in between leave the paused state as it is. The same holds
when input events change `this.input` between the frames. -/
theorem C10_pause_resume {K : Type} [LinearOrderedField K] [FloorRing K] (M : MathOps K)
    (g : Game K) (ds : List (K × K)) (ts : List (Tick K))
    (h : g.state = Phase.serve ∨ g.state = Phase.play) :
    g._togglePause.state = Phase.pause ∧
    g._togglePause.updates M ds = g._togglePause ∧
    (g._togglePause.updates M ds)._togglePause.state = g.state ∧
    (g._togglePause.updates M ds)._togglePause.serveRemaining = g.serveRemaining ∧
    (g._togglePause.updates M ds)._togglePause.matchTimeLeft = g.matchTimeLeft ∧
    (g._togglePause.updates M ds)._togglePause.leftScore = g.leftScore ∧
    (g._togglePause.updates M ds)._togglePause.rightScore = g.rightScore ∧
    (g._togglePause.updates M ds)._togglePause.left = g.left ∧
    (g._togglePause.updates M ds)._togglePause.right = g.right ∧
    (g._togglePause.updates M ds)._togglePause.ball = g.ball ∧
    (g._togglePause.run M ts)._togglePause.state = g.state ∧
    (g._togglePause.run M ts)._togglePause.serveRemaining = g.serveRemaining ∧
    (g._togglePause.run M ts)._togglePause.matchTimeLeft = g.matchTimeLeft ∧
    (g._togglePause.run M ts)._togglePause.leftScore = g.leftScore ∧
    (g._togglePause.run M ts)._togglePause.rightScore = g.rightScore ∧
    (g._togglePause.run M ts)._togglePause.left = g.left ∧
    (g._togglePause.run M ts)._togglePause.right = g.right ∧
    (g._togglePause.run M ts)._togglePause.ball = g.ball := by
  have hp := Game.togglePause_live g h.symm
  have hs : g._togglePause.state = Phase.pause := by rw [hp]
  obtain ⟨i, hi⟩ := Game.run_of_pause M g._togglePause ts hs
  rw [Game.updates_of_pause M _ ds hs, hi, hp]
  rcases h with h | h <;> simp [Game._togglePause, h]

/-- Claim C10 at a serve with `serveRemaining = 2`, paused over two updates of
10 s and 1000 s -/
theorem C10_pause_resume_witness :
    ((Examples.stateWith Phase.serve 1 2 (Examples.flatBall 400 420) : Game ℝ).state
        = Phase.serve ∨
      (Examples.stateWith Phase.serve 1 2 (Examples.flatBall 400 420) : Game ℝ).state
        = Phase.play) ∧
    (((Examples.stateWith Phase.serve 1 2 (Examples.flatBall 400 420) : Game ℝ)._togglePause.updates
      realMath [(10, 0), (1000, 0)])._togglePause).state = Phase.serve ∧
    (((Examples.stateWith Phase.serve 1 2 (Examples.flatBall 400 420) : Game ℝ)._togglePause.updates
      realMath [(10, 0), (1000, 0)])._togglePause).serveRemaining = 2 :=
  ⟨Or.inl rfl,
    (C10_pause_resume realMath (Examples.stateWith Phase.serve 1 2 (Examples.flatBall 400 420))
      [(10, 0), (1000, 0)] [] (Or.inl rfl)).2.2.1,
    (C10_pause_resume realMath (Examples.stateWith Phase.serve 1 2 (Examples.flatBall 400 420))
      [(10, 0), (1000, 0)] [] (Or.inl rfl)).2.2.2.1⟩

/-! ## Ball integration -/

/-- Claim C14: `Ball.update(dt)` stores the old position in `prevX`, `prevY`,
sets `x` to `x + vx * dt` and leaves `vx`, sets `y` to
`clamp(y + vy * dt, r, worldHeight - r)`, which lies in `[10, 440]`, sets `vy`
to `|vy|` below the top wall, to `-|vy|` beyond the bottom wall and leaves it
otherwise, and sets `didWallBounce` exactly in the two wall cases. -/
theorem C14_ball_update {K : Type} [LinearOrderedField K] (b : Ball K) (dt : K) :
    (b.update dt).prevX = b.x ∧
    (b.update dt).prevY = b.y ∧
    (b.update dt).x = b.x + b.vx * dt ∧
    (b.update dt).vx = b.vx ∧
    (b.update dt).y = clamp (b.y + b.vy * dt) CONFIG.ball.r (CONFIG.world.h - CONFIG.ball.r) ∧
    10 ≤ (b.update dt).y ∧ (b.update dt).y ≤ 440 ∧
    (b.update dt).vy =
      (if b.y + b.vy * dt < CONFIG.ball.r then |b.vy|
        else if b.y + b.vy * dt > CONFIG.world.h - CONFIG.ball.r then -|b.vy|
        else b.vy) ∧
    ((b.update dt).didWallBounce = true ↔
      (b.y + b.vy * dt < CONFIG.ball.r ∨ b.y + b.vy * dt > CONFIG.world.h - CONFIG.ball.r)) ∧
    (b.update dt).speed = b.speed ∧
    (b.update dt).hits = b.hits := by
  have hy : (b.update dt).y =
      clamp (b.y + b.vy * dt) CONFIG.ball.r (CONFIG.world.h - CONFIG.ball.r) := by
    unfold Ball.update clamp CONFIG.ball.r CONFIG.world.h
    simp only
    split_ifs with h1 h2
    · rw [min_eq_right (by linarith), max_eq_left h1.le]
    · rw [min_eq_left (by linarith)]
      norm_num
    · rw [min_eq_right (not_lt.mp h2), max_eq_right (not_lt.mp h1)]
  have hm := clamp_mem (b.y + b.vy * dt) (CONFIG.ball.r : K) (CONFIG.world.h - CONFIG.ball.r)
    (by unfold CONFIG.ball.r CONFIG.world.h; norm_num)
  refine ⟨?_, ?_, ?_, ?_, hy, ?_, ?_, ?_, ?_, ?_, ?_⟩
  · unfold Ball.update; simp only; split_ifs <;> rfl
  · unfold Ball.update; simp only; split_ifs <;> rfl
  · unfold Ball.update; simp only; split_ifs <;> rfl
  · unfold Ball.update; simp only; split_ifs <;> rfl
  · rw [hy]
    have := hm.1
    unfold CONFIG.ball.r at this
    exact this
  · rw [hy]
    have h440 : (CONFIG.world.h - CONFIG.ball.r : K) = 440 := by
      unfold CONFIG.ball.r CONFIG.world.h
      norm_num
    exact hm.2.trans h440.le
  · unfold Ball.update; simp only; split_ifs <;> rfl
  · unfold Ball.update
    simp only
    split_ifs with h1 h2
    · simp [h1]
    · simp [h2]
    · simp [h1, h2]
  · unfold Ball.update; simp only; split_ifs <;> rfl
  · unfold Ball.update; simp only; split_ifs <;> rfl

/-! ## Circle against rectangle -/

theorem clamp_closest {K : Type} [LinearOrderedField K] (c a w p : K) (hw : 0 ≤ w)
    (h1 : a ≤ p) (h2 : p ≤ a + w) :
    (c - clamp c a (a + w)) * (c - clamp c a (a + w)) ≤ (c - p) * (c - p) := by
  unfold clamp
  rcases le_total c a with hc | hc
  · rw [min_eq_right (by linarith), max_eq_left hc]
    nlinarith
  · rcases le_total c (a + w) with hc2 | hc2
    · rw [min_eq_right hc2, max_eq_right hc]
      nlinarith [mul_self_nonneg (c - p)]
    · rw [min_eq_left hc2, max_eq_right (by linarith)]
      nlinarith

/-- Claim C18: for a rectangle with `w >= 0` and `h >= 0`, `circleRectHit` is
true exactly when some point of the closed rectangle lies within distance `r`
of the centre `(cx, cy)`. -/
theorem C18_circleRectHit_geometric {K : Type} [LinearOrderedField K] (cx cy r : K)
    (rect : Rect K) (hw : 0 ≤ rect.w) (hh : 0 ≤ rect.h) :
    circleRectHit cx cy r rect = true ↔
      ∃ px py, rect.x ≤ px ∧ px ≤ rect.x + rect.w ∧ rect.y ≤ py ∧ py ≤ rect.y + rect.h ∧
        (cx - px) * (cx - px) + (cy - py) * (cy - py) ≤ r * r := by
  unfold circleRectHit
  simp only [decide_eq_true_eq]
  constructor
  · intro h
    have hx := clamp_mem cx rect.x (rect.x + rect.w) (by linarith)
    have hy := clamp_mem cy rect.y (rect.y + rect.h) (by linarith)
    exact ⟨_, _, hx.1, hx.2, hy.1, hy.2, h⟩
  · rintro ⟨px, py, hx1, hx2, hy1, hy2, hd⟩
    have h1 := clamp_closest cx rect.x rect.w px hw hx1 hx2
    have h2 := clamp_closest cy rect.y rect.h py hh hy1 hy2
    linarith

/-- Claim C18 at the ball of radius 10 centred 7 right of the left paddle -/
theorem C18_circleRectHit_geometric_witness :
    (0 : ℝ) ≤ (Paddle.new (40 : ℝ) 225).rect.w ∧ (0 : ℝ) ≤ (Paddle.new (40 : ℝ) 225).rect.h ∧
    (circleRectHit (55 : ℝ) 225 10 (Paddle.new 40 225).rect = true ↔
      ∃ px py : ℝ, (Paddle.new (40 : ℝ) 225).rect.x ≤ px ∧
        px ≤ (Paddle.new (40 : ℝ) 225).rect.x + (Paddle.new (40 : ℝ) 225).rect.w ∧
        (Paddle.new (40 : ℝ) 225).rect.y ≤ py ∧
        py ≤ (Paddle.new (40 : ℝ) 225).rect.y + (Paddle.new (40 : ℝ) 225).rect.h ∧
        (55 - px) * (55 - px) + (225 - py) * (225 - py) ≤ 10 * 10) :=
  ⟨by norm_num [Paddle.rect, Paddle.new, CONFIG.paddle.w],
    by norm_num [Paddle.rect, Paddle.new, CONFIG.paddle.h],
    C18_circleRectHit_geometric 55 225 10 (Paddle.new 40 225).rect
      (by norm_num [Paddle.rect, Paddle.new, CONFIG.paddle.w])
      (by norm_num [Paddle.rect, Paddle.new, CONFIG.paddle.h])⟩

/-! ## Paddle control -/

section Control
variable {K : Type} [LinearOrderedField K]

theorem Game.update_live_paddles [FloorRing K] (M : MathOps K) (g : Game K) (dt rnd : K)
    (h : g.state = Phase.serve ∨ g.state = Phase.play) (he : 0 < g.matchTimeLeft - dt) :
    (g.update M dt rnd).left = Game.leftPaddleStep g.input g.left dt ∧
    (g.update M dt rnd).right =
      Game.rightPaddleStep g.twoPlayer g.input g.right g.ball.y dt := by
  rw [Game.update_of_live M g dt rnd h he]
  simp only [Game.tickScore_paddles, Game.rally_keeps, Game.tickClock_keeps, and_self]

theorem clamp_abs_le (dy m : K) (hm : 0 ≤ m) : |clamp dy (-m) m| ≤ m := by
  have h := clamp_mem dy (-m) m (by linarith)
  exact abs_le.mpr h

theorem Game.dragPaddle_spec (p : Paddle K) (py dt : K) (hdt : 0 ≤ dt) :
    (Game.dragPaddle p py dt).y =
      p.y + clamp (clamp py 45 405 - p.y) (-(520 * dt)) (520 * dt) ∧
    (Game.dragPaddle p py dt).vy = 0 ∧
    (Game.dragPaddle p py dt).x = p.x ∧
    |(Game.dragPaddle p py dt).y - p.y| ≤ 520 * dt ∧
    (|clamp py 45 405 - p.y| ≤ 520 * dt → (Game.dragPaddle p py dt).y = clamp py 45 405) ∧
    min p.y (clamp py 45 405) ≤ (Game.dragPaddle p py dt).y ∧
    (Game.dragPaddle p py dt).y ≤ max p.y (clamp py 45 405) := by
  have hm : (0 : K) ≤ 520 * dt := mul_nonneg (by norm_num) hdt
  have h45 : (CONFIG.paddle.h / 2 : K) = 45 := by unfold CONFIG.paddle.h; norm_num
  have h405 : (CONFIG.world.h - 45 : K) = 405 := by
    unfold CONFIG.world.h; norm_num
  have hy : (Game.dragPaddle p py dt).y =
      p.y + clamp (clamp py 45 405 - p.y) (-(520 * dt)) (520 * dt) := by
    unfold Game.dragPaddle
    simp only [h45, h405, CONFIG.paddle.speed]
  have hs := clamp_step (clamp py 45 405 - p.y) (520 * dt) hm
  refine ⟨hy, rfl, rfl, ?_, ?_, ?_, ?_⟩
  · rw [hy, add_sub_cancel_left]
    exact clamp_abs_le _ _ hm
  · intro h
    rw [hy, clamp_of_mem _ _ _ (abs_le.mp h).1 (abs_le.mp h).2]
    ring
  · rw [hy]
    rcases le_total 0 (clamp py 45 405 - p.y) with h | h
    · rw [min_eq_left (by linarith)]
      have := hs.1
      rw [min_eq_left h] at this
      linarith
    · rw [min_eq_right (by linarith)]
      have := hs.1
      rw [min_eq_right h] at this
      linarith
  · rw [hy]
    rcases le_total 0 (clamp py 45 405 - p.y) with h | h
    · rw [max_eq_right (by linarith)]
      have := hs.2
      rw [max_eq_right h] at this
      linarith
    · rw [max_eq_left (by linarith)]
      have := hs.2
      rw [max_eq_left h] at this
      linarith

theorem Paddle.update_of_held (p : Paddle K) (dt : K) (hv : p.vy = 0) (hp : p.inBounds) :
    p.update dt = p := by
  obtain ⟨x, y, vy⟩ := p
  unfold Paddle.inBounds at hp
  simp only at hv hp
  unfold Paddle.update
  simp only [hv, zero_mul, add_zero]
  rw [clamp_of_mem _ _ _ hp.1 hp.2]

end Control

/-- Claim C15: with two-player mode off, on every tick in serve or play that
does not expire the clock, `right.vy` becomes 0 when `|ball.y - right.y| < 14`
and `clamp(3 * (ball.y - right.y), -420, 420)` otherwise, the difference being
taken before ball and paddle move, and `right.y` becomes
`clamp(right.y + right.vy * dt, 45, 405)`, whatever the input holds. -/
theorem C15_ai_mode {K : Type} [LinearOrderedField K] [FloorRing K] (M : MathOps K)
    (g : Game K) (dt rnd : K) (h2p : g.twoPlayer = false)
    (hlive : g.state = Phase.serve ∨ g.state = Phase.play)
    (hclock : 0 < g.matchTimeLeft - dt) :
    (g.update M dt rnd).right.vy =
      (if |g.ball.y - g.right.y| < 14 then 0
        else clamp ((g.ball.y - g.right.y) * 3) (-420) 420) ∧
    (g.update M dt rnd).right.y =
      clamp (g.right.y + (g.update M dt rnd).right.vy * dt) 45 405 ∧
    (g.update M dt rnd).right.x = g.right.x := by
  have h45 : (CONFIG.paddle.h / 2 : K) = 45 := by unfold CONFIG.paddle.h; norm_num
  have h405 : (CONFIG.world.h - 45 : K) = 405 := by
    unfold CONFIG.world.h; norm_num
  rw [(Game.update_live_paddles M g dt rnd hlive hclock).2, h2p]
  unfold Game.rightPaddleStep Game.aiPaddle Paddle.update
  simp only [Bool.false_eq_true, if_false, h405, h45, CONFIG.ai.deadZone,
    CONFIG.ai.followSpeed]
  split_ifs <;> exact ⟨rfl, rfl, rfl⟩

/-- Claim C15 at a ball 100 below the right paddle, with the right keys held -/
theorem C15_ai_mode_witness :
    ({ (Examples.stateWith Phase.play 0 0 (Examples.flatBall 400 420) : Game ℝ) with
        right := Paddle.new 760 125
        input := { Examples.idleInput with rightUp := true } }).twoPlayer = false ∧
    (({ (Examples.stateWith Phase.play 0 0 (Examples.flatBall 400 420) : Game ℝ) with
        right := Paddle.new 760 125
        input := { Examples.idleInput with rightUp := true } }).update
      realMath (1 / 60) (1 / 2)).right.vy = 300 ∧
    (({ (Examples.stateWith Phase.play 0 0 (Examples.flatBall 400 420) : Game ℝ) with
        right := Paddle.new 760 125
        input := { Examples.idleInput with rightUp := true } }).update
      realMath (1 / 60) (1 / 2)).right.y = 130 := by
  have h := C15_ai_mode realMath
    ({ (Examples.stateWith Phase.play 0 0 (Examples.flatBall 400 420) : Game ℝ) with
        right := Paddle.new 760 125
        input := { Examples.idleInput with rightUp := true } })
    (1 / 60) (1 / 2) rfl (Or.inr rfl) (by norm_num [Examples.stateWith])
  have hv : (({ (Examples.stateWith Phase.play 0 0 (Examples.flatBall 400 420) : Game ℝ) with
        right := Paddle.new 760 125
        input := { Examples.idleInput with rightUp := true } }).update
      realMath (1 / 60) (1 / 2)).right.vy = 300 := by
    rw [h.1]
    norm_num [Examples.stateWith, Examples.flatBall, Paddle.new, clamp, abs_of_pos]
  refine ⟨rfl, hv, ?_⟩
  rw [h.2.1, hv]
  norm_num [Examples.stateWith, Paddle.new, clamp]
/-- Claim C16: on a tick in serve or play that does not expire the clock, with
`dt >= 0`, a side with an active pointer (the left side always, the right
side in two-player mode) moves by `clamp(target - y, -520 * dt, 520 * dt)`
for `target = clamp(pointerY, 45, 405)`: at most `520 * dt`, exactly onto the
target when `|target - y| <= 520 * dt`, never past it, with `vy = 0`
afterwards, whatever keys are held for that side. -/
theorem C16_pointer_drag {K : Type} [LinearOrderedField K] [FloorRing K] (M : MathOps K)
    (g : Game K) (dt rnd py : K) (hdt : 0 ≤ dt)
    (hlive : g.state = Phase.serve ∨ g.state = Phase.play)
    (hclock : 0 < g.matchTimeLeft - dt) :
    (g.input.isDownLeft = true → g.input.pointerYLeft = some py →
      (g.update M dt rnd).left.y =
        g.left.y + clamp (clamp py 45 405 - g.left.y) (-(520 * dt)) (520 * dt) ∧
      (g.update M dt rnd).left.vy = 0 ∧
      |(g.update M dt rnd).left.y - g.left.y| ≤ 520 * dt ∧
      (|clamp py 45 405 - g.left.y| ≤ 520 * dt →
        (g.update M dt rnd).left.y = clamp py 45 405) ∧
      min g.left.y (clamp py 45 405) ≤ (g.update M dt rnd).left.y ∧
      (g.update M dt rnd).left.y ≤ max g.left.y (clamp py 45 405)) ∧
    (g.twoPlayer = true → g.input.isDownRight = true → g.input.pointerYRight = some py →
      g.right.inBounds →
      (g.update M dt rnd).right.y =
        g.right.y + clamp (clamp py 45 405 - g.right.y) (-(520 * dt)) (520 * dt) ∧
      (g.update M dt rnd).right.vy = 0 ∧
      |(g.update M dt rnd).right.y - g.right.y| ≤ 520 * dt ∧
      (|clamp py 45 405 - g.right.y| ≤ 520 * dt →
        (g.update M dt rnd).right.y = clamp py 45 405) ∧
      min g.right.y (clamp py 45 405) ≤ (g.update M dt rnd).right.y ∧
      (g.update M dt rnd).right.y ≤ max g.right.y (clamp py 45 405)) := by
  have hp := Game.update_live_paddles M g dt rnd hlive hclock
  constructor
  · intro hd hpy
    have hl : Game.leftPaddleStep g.input g.left dt = Game.dragPaddle g.left py dt := by
      unfold Game.leftPaddleStep
      rw [hd, hpy]
    rw [hp.1, hl]
    have h := Game.dragPaddle_spec g.left py dt hdt
    exact ⟨h.1, h.2.1, h.2.2.2.1, h.2.2.2.2.1, h.2.2.2.2.2.1, h.2.2.2.2.2.2⟩
  · intro h2 hd hpy hb
    have hr : Game.rightPaddleStep g.twoPlayer g.input g.right g.ball.y dt =
        Game.dragPaddle g.right py dt := by
      unfold Game.rightPaddleStep
      rw [h2, hd, hpy]
      simp only [if_true]
      exact Paddle.update_of_held _ dt rfl (Game.dragPaddle_inBounds g.right py dt hdt hb)
    rw [hp.2, hr]
    have h := Game.dragPaddle_spec g.right py dt hdt
    exact ⟨h.1, h.2.1, h.2.2.2.1, h.2.2.2.2.1, h.2.2.2.2.2.1, h.2.2.2.2.2.2⟩

/-- Claim C16 at a left pointer held at `y = 1000` with the up key pressed:
the paddle moves down from 225 by `520 / 60` -/
theorem C16_pointer_drag_witness :
    (0 : ℝ) ≤ 1 / 60 ∧
    ({ (Examples.stateWith Phase.play 0 0 (Examples.flatBall 400 420) : Game ℝ) with
        input := { Examples.idleInput with
          isDownLeft := true, pointerYLeft := some 1000, leftUp := true } }).input.isDownLeft
      = true ∧
    (({ (Examples.stateWith Phase.play 0 0 (Examples.flatBall 400 420) : Game ℝ) with
        input := { Examples.idleInput with
          isDownLeft := true, pointerYLeft := some 1000, leftUp := true } }).update
      realMath (1 / 60) (1 / 2)).left.y = 225 + 520 / 60 ∧
    (({ (Examples.stateWith Phase.play 0 0 (Examples.flatBall 400 420) : Game ℝ) with
        input := { Examples.idleInput with
          isDownLeft := true, pointerYLeft := some 1000, leftUp := true } }).update
      realMath (1 / 60) (1 / 2)).left.vy = 0 := by
  have h := (C16_pointer_drag realMath
    ({ (Examples.stateWith Phase.play 0 0 (Examples.flatBall 400 420) : Game ℝ) with
        input := { Examples.idleInput with
          isDownLeft := true, pointerYLeft := some 1000, leftUp := true } })
    (1 / 60) (1 / 2) 1000 (by norm_num) (Or.inr rfl) (by norm_num [Examples.stateWith])).1
    rfl rfl
  refine ⟨by norm_num, rfl, ?_, h.2.1⟩
  rw [h.1]
  norm_num [Examples.stateWith, Paddle.new, clamp]

/-! ## No re-triggering -/

theorem Game.resolveHit_vx_sign (b : Ball ℝ) (p : Paddle ℝ) (d yAt : ℝ)
    (hd : d = 1 ∨ d = -1) : 0 < d * (Game.resolveHit realMath b p d yAt).vx := by
  have hpos := Game.hypot_pos p (b.hits + 1) d yAt hd
  have hs : (0 : ℝ) < Game.rampSpeed (b.hits + 1) := Game.rampSpeed_pos _
  have hc := Game.bounceAngle_cos_pos yAt p.y
  have hd2 : d * d = 1 := by rcases hd with rfl | rfl <;> norm_num
  unfold Game.resolveHit Game.hitMag
  simp only [if_neg hpos.ne']
  have hsc : 0 < Game.rampSpeed (b.hits + 1) /
      realMath.hypot
        (realMath.cos (Game.bounceAngle realMath yAt p.y) * Game.rampSpeed (b.hits + 1) * d)
        (realMath.sin (Game.bounceAngle realMath yAt p.y) * Game.rampSpeed (b.hits + 1) +
          p.vy * CONFIG.bounce.spinFactor) := div_pos hs hpos
  have he : d * (realMath.cos (Game.bounceAngle realMath yAt p.y) *
      Game.rampSpeed (b.hits + 1) * d *
      (Game.rampSpeed (b.hits + 1) /
        realMath.hypot
          (realMath.cos (Game.bounceAngle realMath yAt p.y) * Game.rampSpeed (b.hits + 1) * d)
          (realMath.sin (Game.bounceAngle realMath yAt p.y) * Game.rampSpeed (b.hits + 1) +
            p.vy * CONFIG.bounce.spinFactor))) =
      (d * d) * (realMath.cos (Game.bounceAngle realMath yAt p.y) *
      Game.rampSpeed (b.hits + 1) *
      (Game.rampSpeed (b.hits + 1) /
        realMath.hypot
          (realMath.cos (Game.bounceAngle realMath yAt p.y) * Game.rampSpeed (b.hits + 1) * d)
          (realMath.sin (Game.bounceAngle realMath yAt p.y) * Game.rampSpeed (b.hits + 1) +
            p.vy * CONFIG.bounce.spinFactor))) := by ring
  rw [he, hd2, one_mul]
  exact mul_pos (mul_pos hc hs) hsc

theorem Game.resolveHit_clear {K : Type} [LinearOrderedField K] (M : MathOps K) (b : Ball K)
    (p : Paddle K) (d yAt : K) :
    circleRectHit (Game.resolveHit M b p d yAt).x (Game.resolveHit M b p d yAt).y
      CONFIG.ball.r p.rect = false := by
  have hx : (Game.resolveHit M b p d yAt).x =
      if d > 0 then p.rect.x + p.rect.w + CONFIG.ball.r + 1 / 1000
      else p.rect.x - CONFIG.ball.r - 1 / 1000 := rfl
  have hsq := mul_self_nonneg
    ((Game.resolveHit M b p d yAt).y -
      clamp (Game.resolveHit M b p d yAt).y p.rect.y (p.rect.y + p.rect.h))
  unfold circleRectHit
  simp only [decide_eq_false_iff_not, not_le]
  rw [hx]
  split_ifs
  · have hcl : clamp (p.rect.x + p.rect.w + CONFIG.ball.r + 1 / 1000) p.rect.x
        (p.rect.x + p.rect.w) = p.rect.x + p.rect.w := by
      unfold clamp CONFIG.ball.r
      rw [min_eq_left (by linarith), max_eq_right (by simp [Paddle.rect, CONFIG.paddle.w])]
    rw [hcl]
    unfold CONFIG.ball.r at hsq ⊢
    nlinarith
  · have hcl : clamp (p.rect.x - CONFIG.ball.r - 1 / 1000) p.rect.x
        (p.rect.x + p.rect.w) = p.rect.x := by
      unfold clamp CONFIG.ball.r
      rw [min_eq_right (by simp only [Paddle.rect, CONFIG.paddle.w]; linarith),
        max_eq_left (by linarith)]
    rw [hcl]
    unfold CONFIG.ball.r at hsq ⊢
    nlinarith

theorem Game.contact_of_receding {K : Type} [LinearOrderedField K] (b : Ball K) (p : Paddle K)
    (d : K) (hd : d = 1 ∨ d = -1) (hv : 0 < d * b.vx) : Game.contact b p d = none := by
  unfold Game.contact
  rcases hd with rfl | rfl
  · rw [if_pos ⟨one_pos, by linarith⟩]
  · rw [if_neg (by intro h; exact absurd h.1 (by norm_num)),
      if_pos ⟨by norm_num, by linarith⟩]

/-- Claim C17: for `towardDir` in `{-1, +1}`, over the reals, applying
`_handlePaddleHit(paddle, towardDir)` twice gives the same ball as applying it
once; after a registered contact `vx` is nonzero with the sign of
`towardDir`, `circleRectHit` of the repositioned ball against the rectangle of the paddle
is false, and a second call registers no contact. -/
theorem C17_no_retrigger (g : Game ℝ) (p : Paddle ℝ) (d : ℝ) (hd : d = 1 ∨ d = -1) :
    ((g._handlePaddleHit realMath p d)._handlePaddleHit realMath p d).ball =
      (g._handlePaddleHit realMath p d).ball ∧
    (∀ yAt, Game.contact g.ball p d = some yAt →
      0 < d * (g._handlePaddleHit realMath p d).ball.vx ∧
      (g._handlePaddleHit realMath p d).ball.vx ≠ 0 ∧
      circleRectHit (g._handlePaddleHit realMath p d).ball.x
        (g._handlePaddleHit realMath p d).ball.y CONFIG.ball.r p.rect = false ∧
      Game.contact (g._handlePaddleHit realMath p d).ball p d = none) := by
  have key : ∀ yAt, Game.contact g.ball p d = some yAt →
      0 < d * (g._handlePaddleHit realMath p d).ball.vx ∧
      (g._handlePaddleHit realMath p d).ball.vx ≠ 0 ∧
      circleRectHit (g._handlePaddleHit realMath p d).ball.x
        (g._handlePaddleHit realMath p d).ball.y CONFIG.ball.r p.rect = false ∧
      Game.contact (g._handlePaddleHit realMath p d).ball p d = none := by
    intro yAt hc
    have hb := (Game.handlePaddleHit_of_contact realMath g p d yAt hc).1
    have hv := Game.resolveHit_vx_sign g.ball p d yAt hd
    rw [hb]
    refine ⟨hv, ?_, Game.resolveHit_clear realMath g.ball p d yAt,
      Game.contact_of_receding _ p d hd hv⟩
    intro h0
    rw [h0, mul_zero] at hv
    exact lt_irrefl _ hv
  refine ⟨?_, key⟩
  cases hc : Game.contact g.ball p d with
  | none =>
    rw [Game.handlePaddleHit_of_none realMath g p d hc,
      Game.handlePaddleHit_of_none realMath g p d hc]
  | some yAt =>
    rw [Game.handlePaddleHit_of_none realMath _ p d (key yAt hc).2.2.2]

/-- Claim C17 at the left paddle hit by a ball 7 right of its face -/
theorem C17_no_retrigger_witness :
    ((1 : ℝ) = 1 ∨ (1 : ℝ) = -1) ∧
    Game.contact (Examples.stateWith Phase.play 0 0 (Examples.flatBall 55 (-420)) : Game ℝ).ball
      (Paddle.new 40 225) 1 = some 225 ∧
    ((((Examples.stateWith Phase.play 0 0 (Examples.flatBall 55 (-420)) : Game ℝ)._handlePaddleHit
      realMath (Paddle.new 40 225) 1)._handlePaddleHit realMath (Paddle.new 40 225) 1).ball =
      ((Examples.stateWith Phase.play 0 0 (Examples.flatBall 55 (-420)) : Game ℝ)._handlePaddleHit
        realMath (Paddle.new 40 225) 1).ball) ∧
    0 < (1 : ℝ) *
      ((Examples.stateWith Phase.play 0 0 (Examples.flatBall 55 (-420)) : Game ℝ)._handlePaddleHit
        realMath (Paddle.new 40 225) 1).ball.vx :=
  ⟨Or.inl rfl, Examples.flatBall_contact,
    (C17_no_retrigger (Examples.stateWith Phase.play 0 0 (Examples.flatBall 55 (-420)))
      (Paddle.new 40 225) 1 (Or.inl rfl)).1,
    ((C17_no_retrigger (Examples.stateWith Phase.play 0 0 (Examples.flatBall 55 (-420)))
      (Paddle.new 40 225) 1 (Or.inl rfl)).2 225 Examples.flatBall_contact).1⟩

/-! ## Restart and quit -/

section Reset
variable {K : Type} [LinearOrderedField K]

theorem Game.showMenu_fields (M : MathOps K) (g : Game K) (r1 r2 : K) :
    (g.showMenu M r1 r2).state = Phase.menu ∧
    (g.showMenu M r1 r2).leftScore = g.leftScore ∧
    (g.showMenu M r1 r2).rightScore = g.rightScore ∧
    (g.showMenu M r1 r2).left = g.left ∧
    (g.showMenu M r1 r2).right = g.right ∧
    (g.showMenu M r1 r2).ball.x = CONFIG.world.w / 2 ∧
    (g.showMenu M r1 r2).ball.y = CONFIG.world.h / 2 ∧
    (g.showMenu M r1 r2).ball.hits = 0 ∧
    (g.showMenu M r1 r2).ball.speed = CONFIG.ball.speed ∧
    (g.showMenu M r1 r2).matchTimeLeft = CONFIG.matchDurationSeconds :=
  ⟨rfl, rfl, rfl, rfl, rfl, rfl, rfl, rfl, rfl, rfl⟩

theorem Game.restart_fields (M : MathOps K) (g : Game K) (r1 r2 r3 r4 : K) :
    (g.restart M r1 r2 r3 r4).state = Phase.menu ∧
    (g.restart M r1 r2 r3 r4).leftScore = 0 ∧
    (g.restart M r1 r2 r3 r4).rightScore = 0 ∧
    (g.restart M r1 r2 r3 r4).left.y = CONFIG.world.h / 2 ∧
    (g.restart M r1 r2 r3 r4).right.y = CONFIG.world.h / 2 ∧
    (g.restart M r1 r2 r3 r4).ball.x = CONFIG.world.w / 2 ∧
    (g.restart M r1 r2 r3 r4).ball.y = CONFIG.world.h / 2 ∧
    (g.restart M r1 r2 r3 r4).ball.hits = 0 ∧
    (g.restart M r1 r2 r3 r4).ball.speed = CONFIG.ball.speed ∧
    (g.restart M r1 r2 r3 r4).matchTimeLeft = CONFIG.matchDurationSeconds :=
  ⟨rfl, rfl, rfl, rfl, rfl, rfl, rfl, rfl, rfl, rfl⟩

end Reset

/-- Claim C11, the code at the over screen of a match won 7 to 3 with the
paddles at 100 and 300: `restart()` gives phase menu, scores 0 and 0, both
paddles at `worldHeight / 2 = 225`, the ball at the world centre with
`hits = 0` and base speed, and 540 s on the clock; `_quitToMenu()` gives the
same phase, ball and clock but leaves the scores at 7 and 3 and the paddles at
100 and 300, and a match started from that menu begins at 7 to 3. -/
theorem C11_quit_keeps_scores :
    ((Examples.wonMatch : Game ℝ).restart realMath 0 0 0 0).state = Phase.menu ∧
    ((Examples.wonMatch : Game ℝ).restart realMath 0 0 0 0).leftScore = 0 ∧
    ((Examples.wonMatch : Game ℝ).restart realMath 0 0 0 0).rightScore = 0 ∧
    ((Examples.wonMatch : Game ℝ).restart realMath 0 0 0 0).left.y = 225 ∧
    ((Examples.wonMatch : Game ℝ).restart realMath 0 0 0 0).right.y = 225 ∧
    ((Examples.wonMatch : Game ℝ).restart realMath 0 0 0 0).ball.x = 400 ∧
    ((Examples.wonMatch : Game ℝ).restart realMath 0 0 0 0).ball.y = 225 ∧
    ((Examples.wonMatch : Game ℝ).restart realMath 0 0 0 0).ball.hits = 0 ∧
    ((Examples.wonMatch : Game ℝ).restart realMath 0 0 0 0).ball.speed = 420 ∧
    ((Examples.wonMatch : Game ℝ).restart realMath 0 0 0 0).matchTimeLeft = 540 ∧
    ((Examples.wonMatch : Game ℝ)._quitToMenu realMath 0 0).state = Phase.menu ∧
    ((Examples.wonMatch : Game ℝ)._quitToMenu realMath 0 0).ball.x = 400 ∧
    ((Examples.wonMatch : Game ℝ)._quitToMenu realMath 0 0).ball.y = 225 ∧
    ((Examples.wonMatch : Game ℝ)._quitToMenu realMath 0 0).ball.hits = 0 ∧
    ((Examples.wonMatch : Game ℝ)._quitToMenu realMath 0 0).ball.speed = 420 ∧
    ((Examples.wonMatch : Game ℝ)._quitToMenu realMath 0 0).matchTimeLeft = 540 ∧
    ((Examples.wonMatch : Game ℝ)._quitToMenu realMath 0 0).leftScore = 7 ∧
    ((Examples.wonMatch : Game ℝ)._quitToMenu realMath 0 0).rightScore = 3 ∧
    ((Examples.wonMatch : Game ℝ)._quitToMenu realMath 0 0).left.y = 100 ∧
    ((Examples.wonMatch : Game ℝ)._quitToMenu realMath 0 0).right.y = 300 ∧
    (((Examples.wonMatch : Game ℝ)._quitToMenu realMath 0 0)._startOrRestart
      realMath 0 0 0 0).state = Phase.serve ∧
    (((Examples.wonMatch : Game ℝ)._quitToMenu realMath 0 0)._startOrRestart
      realMath 0 0 0 0).leftScore = 7 ∧
    (((Examples.wonMatch : Game ℝ)._quitToMenu realMath 0 0)._startOrRestart
      realMath 0 0 0 0).rightScore = 3 := by
  have hr := Game.restart_fields realMath (Examples.wonMatch : Game ℝ) 0 0 0 0
  have hq := Game.showMenu_fields realMath (Examples.wonMatch : Game ℝ) 0 0
  have h225 : (CONFIG.world.h / 2 : ℝ) = 225 := by unfold CONFIG.world.h; norm_num
  have h400 : (CONFIG.world.w / 2 : ℝ) = 400 := by unfold CONFIG.world.w; norm_num
  have h540 : (CONFIG.matchDurationSeconds : ℝ) = 540 := by
    unfold CONFIG.matchDurationSeconds; norm_num
  have hs : ((Examples.wonMatch : Game ℝ)._quitToMenu realMath 0 0)._startOrRestart
      realMath 0 0 0 0 =
      ((Examples.wonMatch : Game ℝ)._quitToMenu realMath 0 0).start realMath 0 0 := by
    unfold Game._startOrRestart
    exact if_pos hq.1
  rw [hs]
  unfold Game._quitToMenu
  exact ⟨hr.1, hr.2.1, hr.2.2.1, hr.2.2.2.1.trans h225, hr.2.2.2.2.1.trans h225,
    hr.2.2.2.2.2.1.trans h400, hr.2.2.2.2.2.2.1.trans h225, hr.2.2.2.2.2.2.2.1,
    hr.2.2.2.2.2.2.2.2.1, hr.2.2.2.2.2.2.2.2.2.trans h540,
    hq.1, hq.2.2.2.2.2.1.trans h400, hq.2.2.2.2.2.2.1.trans h225, hq.2.2.2.2.2.2.2.1,
    hq.2.2.2.2.2.2.2.2.1, hq.2.2.2.2.2.2.2.2.2.trans h540,
    rfl, rfl, rfl, rfl, rfl, rfl, rfl⟩

/-! ## Serve timing -/

section ServeLemmas
variable {K : Type} [LinearOrderedField K]

theorem Paddle.update_x (p : Paddle K) (dt : K) : (p.update dt).x = p.x := rfl

theorem Game.dragPaddle_x (p : Paddle K) (py dt : K) : (Game.dragPaddle p py dt).x = p.x := rfl

theorem Game.axisPaddle_x (p : Paddle K) (a : Int) : (Game.axisPaddle p a).x = p.x := by
  unfold Game.axisPaddle
  split_ifs <;> rfl

theorem Game.aiPaddle_x (p : Paddle K) (by0 : K) : (Game.aiPaddle p by0).x = p.x := by
  unfold Game.aiPaddle
  simp only
  split_ifs <;> rfl

theorem Game.leftPaddleStep_x (i : Input K) (p : Paddle K) (dt : K) :
    (Game.leftPaddleStep i p dt).x = p.x := by
  unfold Game.leftPaddleStep
  split
  · exact Game.dragPaddle_x p _ dt
  · rw [Paddle.update_x, Game.axisPaddle_x]

theorem Game.rightPaddleStep_x (tp : Bool) (i : Input K) (p : Paddle K) (by0 dt : K) :
    (Game.rightPaddleStep tp i p by0 dt).x = p.x := by
  unfold Game.rightPaddleStep
  split_ifs
  · split
    · rw [Paddle.update_x, Game.dragPaddle_x]
    · rw [Paddle.update_x, Game.axisPaddle_x]
  · rw [Paddle.update_x, Game.aiPaddle_x]

theorem circleRectHit_far (cx cy r : K) (rect : Rect K) (hr : 0 ≤ r) (hw : 0 ≤ rect.w)
    (hfar : cx < rect.x - r ∨ rect.x + rect.w + r < cx) :
    circleRectHit cx cy r rect = false := by
  have hsq := mul_self_nonneg (cy - clamp cy rect.y (rect.y + rect.h))
  unfold circleRectHit
  simp only [decide_eq_false_iff_not, not_le]
  rcases hfar with h | h
  · have hcl : clamp cx rect.x (rect.x + rect.w) = rect.x := by
      unfold clamp
      rw [min_eq_right (by linarith), max_eq_left (by linarith)]
    rw [hcl]
    nlinarith
  · have hcl : clamp cx rect.x (rect.x + rect.w) = rect.x + rect.w := by
      unfold clamp
      rw [min_eq_left (by linarith), max_eq_right (by linarith)]
    rw [hcl]
    nlinarith

theorem Game.contact_centre (b : Ball K) (p : Paddle K) (d : K)
    (hx : b.x = 400) (hprev : b.prevX = 400) (hp : p.x = 40 ∨ p.x = 760) :
    Game.contact b p d = none := by
  have hs : (Game.sweep b p d).1 = false := by
    unfold Game.sweep
    simp only [hx, hprev, Paddle.rect, CONFIG.ball.r, CONFIG.paddle.w]
    rcases hp with hp | hp <;> rw [hp] <;> norm_num
  have hc : circleRectHit b.x b.y CONFIG.ball.r p.rect = false := by
    apply circleRectHit_far
    · unfold CONFIG.ball.r; norm_num
    · simp [Paddle.rect, CONFIG.paddle.w]
    · rw [hx]
      simp only [Paddle.rect, CONFIG.ball.r, CONFIG.paddle.w]
      rcases hp with hp | hp <;> rw [hp] <;> norm_num
  unfold Game.contact
  simp only [hs, hc]
  split_ifs <;> first | rfl | (exfalso; assumption)

theorem Game.hitBall_of_none (M : MathOps K) (b : Ball K) (p : Paddle K) (d : K)
    (h : Game.contact b p d = none) : Game.hitBall M b p d = b := by
  unfold Game.hitBall
  rw [h]

theorem Game.tickScore_inside [FloorRing K] (M : MathOps K) (g : Game K) (rnd : K)
    (h1 : -40 ≤ g.ball.x) (h2 : g.ball.x ≤ CONFIG.world.w + 40) :
    Game.tickScore M g rnd = g := by
  unfold Game.tickScore
  rw [if_neg (not_lt.mpr h1), if_neg (not_lt.mpr h2)]

theorem Game.hitBall_x_range (M : MathOps K) (b : Ball K) (p : Paddle K) (d : K)
    (hp : p.x = 40 ∨ p.x = 760) (h1 : -40 ≤ b.x) (h2 : b.x ≤ 840) :
    -40 ≤ (Game.hitBall M b p d).x ∧ (Game.hitBall M b p d).x ≤ 840 := by
  unfold Game.hitBall
  split
  · exact ⟨h1, h2⟩
  · have hx : ∀ yAt, (Game.resolveHit M b p d yAt).x =
        if d > 0 then p.rect.x + p.rect.w + CONFIG.ball.r + 1 / 1000
        else p.rect.x - CONFIG.ball.r - 1 / 1000 := fun _ => rfl
    rw [hx]
    simp only [Paddle.rect, CONFIG.ball.r, CONFIG.paddle.w]
    rcases hp with hp | hp <;> rw [hp] <;> split_ifs <;> constructor <;> norm_num

theorem Tick.total_append (ts : List (Tick K)) (t : Tick K) :
    Tick.total (ts ++ [t]) = Tick.total ts + t.dt := by
  unfold Tick.total
  simp

theorem Tick.total_nonneg (ts : List (Tick K)) (h : ∀ u ∈ ts, 0 ≤ u.dt) :
    0 ≤ Tick.total ts := by
  unfold Tick.total
  apply List.sum_nonneg
  intro x hx
  obtain ⟨u, hu, rfl⟩ := List.mem_map.mp hx
  exact h u hu

end ServeLemmas

section ServeRun
variable {K : Type} [LinearOrderedField K] [FloorRing K]

theorem Game.update_serve_stay (M : MathOps K) (g : Game K) (dt rnd : K)
    (hs : g.state = Phase.serve) (hclock : 0 < g.matchTimeLeft - dt)
    (hsr : 0 < g.serveRemaining - dt)
    (hx : g.ball.x = 400) (hprev : g.ball.prevX = 400)
    (hl : g.left.x = 40) (hr : g.right.x = 760) :
    (g.update M dt rnd).state = Phase.serve ∧
    (g.update M dt rnd).serveRemaining = g.serveRemaining - dt ∧
    (g.update M dt rnd).matchTimeLeft = g.matchTimeLeft - dt ∧
    (g.update M dt rnd).ball = g.ball ∧
    (g.update M dt rnd).left = Game.leftPaddleStep g.input g.left dt ∧
    (g.update M dt rnd).right =
      Game.rightPaddleStep g.twoPlayer g.input g.right g.ball.y dt ∧
    (g.update M dt rnd).twoPlayer = g.twoPlayer ∧
    (g.update M dt rnd).leftScore = g.leftScore ∧
    (g.update M dt rnd).rightScore = g.rightScore := by
  have hmax : max 0 (g.serveRemaining - dt) = g.serveRemaining - dt := max_eq_right hsr.le
  have hst : (Game.rally M (g.tickClock dt) dt).state = Phase.serve := by
    simp only [Game.rally_keeps, Game.tickClock_keeps, hs, hmax, true_and]
    rw [if_neg (not_le.mpr hsr)]
  have hb : (Game.rally M (g.tickClock dt) dt).ball = g.ball := by
    rw [Game.rally_ball, hst]
    simp only [Game.tickClock_keeps, reduceCtorEq, if_false]
    rw [Game.hitBall_of_none M g.ball _ 1
      (Game.contact_centre _ _ 1 hx hprev (Or.inl (by rw [Game.leftPaddleStep_x]; exact hl)))]
    exact Game.hitBall_of_none M g.ball _ (-1)
      (Game.contact_centre _ _ (-1) hx hprev
        (Or.inr (by rw [Game.rightPaddleStep_x]; exact hr)))
  rw [Game.update_of_live M g dt rnd (Or.inl hs) hclock,
    Game.tickScore_inside M _ rnd (by rw [hb, hx]; norm_num)
      (by rw [hb, hx]; unfold CONFIG.world.w; norm_num)]
  refine ⟨hst, ?_, ?_, hb, ?_, ?_, ?_, ?_, ?_⟩
  · simp only [Game.rally_keeps, Game.tickClock_keeps, hs, hmax, if_true]
  · simp only [Game.rally_keeps]
    rw [Game.tickClock_matchTimeLeft g dt (Or.inl hs)]
    exact max_eq_right hclock.le
  all_goals simp only [Game.rally_keeps, Game.tickClock_keeps]

theorem Game.update_serve_end (M : MathOps K) (g : Game K) (dt rnd : K)
    (hs : g.state = Phase.serve) (hclock : 0 < g.matchTimeLeft - dt)
    (hsr : g.serveRemaining - dt ≤ 0)
    (hx : g.ball.x = 400) (hl : g.left.x = 40) (hr : g.right.x = 760)
    (hv : |g.ball.vx * dt| ≤ 440) :
    (g.update M dt rnd).state = Phase.play ∧
    (g.update M dt rnd).serveRemaining = 0 ∧
    (g.update M dt rnd).left = Game.leftPaddleStep g.input g.left dt ∧
    (g.update M dt rnd).right =
      Game.rightPaddleStep g.twoPlayer g.input g.right g.ball.y dt := by
  have hmax : max 0 (g.serveRemaining - dt) = 0 := max_eq_left hsr
  have hst : (Game.rally M (g.tickClock dt) dt).state = Phase.play := by
    simp only [Game.rally_keeps, Game.tickClock_keeps, hs, hmax, true_and]
    rw [if_pos le_rfl]
  have hux : (g.ball.update dt).x = g.ball.x + g.ball.vx * dt := by
    unfold Ball.update; simp only; split_ifs <;> rfl
  have hv2 := abs_le.mp hv
  have hb : -40 ≤ (Game.rally M (g.tickClock dt) dt).ball.x ∧
      (Game.rally M (g.tickClock dt) dt).ball.x ≤ 840 := by
    rw [Game.rally_ball, hst]
    simp only [Game.tickClock_keeps, if_true]
    apply Game.hitBall_x_range M _ _ (-1) (Or.inr (by rw [Game.rightPaddleStep_x]; exact hr))
    · exact (Game.hitBall_x_range M _ _ 1 (Or.inl (by rw [Game.leftPaddleStep_x]; exact hl))
        (by rw [hux, hx]; linarith [hv2.1]) (by rw [hux, hx]; linarith [hv2.2])).1
    · exact (Game.hitBall_x_range M _ _ 1 (Or.inl (by rw [Game.leftPaddleStep_x]; exact hl))
        (by rw [hux, hx]; linarith [hv2.1]) (by rw [hux, hx]; linarith [hv2.2])).2
  rw [Game.update_of_live M g dt rnd (Or.inl hs) hclock,
    Game.tickScore_inside M _ rnd hb.1 (by unfold CONFIG.world.w; norm_num; exact hb.2)]
  refine ⟨hst, ?_, ?_, ?_⟩
  · simp only [Game.rally_keeps, Game.tickClock_keeps, hs, hmax, if_true]
  all_goals simp only [Game.rally_keeps, Game.tickClock_keeps]

theorem Game.frame_serve_end (M : MathOps K) (g : Game K) (t : Tick K)
    (hs : g.state = Phase.serve) (hclock : 0 < g.matchTimeLeft - t.dt)
    (hsr : g.serveRemaining - t.dt ≤ 0)
    (hx : g.ball.x = 400) (hl : g.left.x = 40) (hr : g.right.x = 760)
    (hv : |g.ball.vx * t.dt| ≤ 440) :
    (g.frame M t).state = Phase.play ∧ (g.frame M t).serveRemaining = 0 := by
  have h := Game.update_serve_end M { g with input := t.input } t.dt t.rnd hs hclock hsr hx
    hl hr hv
  exact ⟨h.1, h.2.1⟩

theorem Game.run_serve (M : MathOps K) (g : Game K) (ts : List (Tick K))
    (hs : g.state = Phase.serve) (hx : g.ball.x = 400) (hprev : g.ball.prevX = 400)
    (hl : g.left.x = 40) (hr : g.right.x = 760)
    (hdt : ∀ u ∈ ts, 0 ≤ u.dt)
    (hsr : Tick.total ts < g.serveRemaining) (hclock : Tick.total ts < g.matchTimeLeft) :
    (g.run M ts).state = Phase.serve ∧
    (g.run M ts).serveRemaining = g.serveRemaining - Tick.total ts ∧
    (g.run M ts).matchTimeLeft = g.matchTimeLeft - Tick.total ts ∧
    (g.run M ts).ball = g.ball ∧
    (g.run M ts).left.x = 40 ∧ (g.run M ts).right.x = 760 ∧
    (g.run M ts).leftScore = g.leftScore ∧ (g.run M ts).rightScore = g.rightScore := by
  induction ts using List.reverseRecOn with
  | nil =>
    simp [Game.run, Tick.total, hs, hl, hr]
  | append_singleton ts t ih =>
    have ht : 0 ≤ t.dt := hdt t (by simp)
    have hdt2 : ∀ u ∈ ts, 0 ≤ u.dt := fun u hu => hdt u (by simp [hu])
    rw [Tick.total_append] at hsr hclock
    obtain ⟨i1, i2, i3, i4, i5, i6, i7, i8⟩ := ih hdt2 (by linarith) (by linarith)
    have h := Game.update_serve_stay M { g.run M ts with input := t.input } t.dt t.rnd i1
      (by show 0 < (g.run M ts).matchTimeLeft - t.dt; rw [i3]; linarith)
      (by show 0 < (g.run M ts).serveRemaining - t.dt; rw [i2]; linarith)
      (by show (g.run M ts).ball.x = 400; rw [i4]; exact hx)
      (by show (g.run M ts).ball.prevX = 400; rw [i4]; exact hprev) i5 i6
    rw [Game.run_append, Tick.total_append]
    unfold Game.frame
    refine ⟨h.1, ?_, ?_, h.2.2.2.1.trans i4, ?_, ?_, h.2.2.2.2.2.2.2.1.trans i7,
      h.2.2.2.2.2.2.2.2.trans i8⟩
    · rw [h.2.1]
      show (g.run M ts).serveRemaining - t.dt = _
      rw [i2]; ring
    · rw [h.2.2.1]
      show (g.run M ts).matchTimeLeft - t.dt = _
      rw [i3]; ring
    · rw [h.2.2.2.2.1, Game.leftPaddleStep_x]
      exact i5
    · rw [h.2.2.2.2.2.1, Game.rightPaddleStep_x]
      exact i6

end ServeRun

theorem Game.beginServe_fields {K : Type} [LinearOrderedField K] [FloorRing K]
    (M : MathOps K) (g : Game K) (dir rnd : K) :
    (g._beginServe M dir rnd).state = Phase.serve ∧
    (g._beginServe M dir rnd).serveRemaining = 3 + 25 / 100 ∧
    (g._beginServe M dir rnd).ball.x = 400 ∧
    (g._beginServe M dir rnd).ball.prevX = 400 ∧
    (g._beginServe M dir rnd).left = g.left ∧
    (g._beginServe M dir rnd).right = g.right ∧
    (g._beginServe M dir rnd).matchTimeLeft = g.matchTimeLeft ∧
    (g._beginServe M dir rnd).ball = g.ball.reset M dir rnd := by
  have h400 : (CONFIG.world.w / 2 : K) = 400 := by unfold CONFIG.world.w; norm_num
  exact ⟨rfl, rfl, h400, h400, rfl, rfl, rfl, rfl⟩

theorem Ball.reset_vx_abs (b : Ball ℝ) (dir rnd : ℝ) (hdir : dir = 1 ∨ dir = -1) :
    |(b.reset realMath dir rnd).vx| ≤ 420 := by
  have hc := Real.abs_cos_le_one (rnd * (6 / 10) - 3 / 10)
  have hd : |dir| = 1 := by rcases hdir with rfl | rfl <;> simp
  unfold Ball.reset
  simp only [realMath, CONFIG.ball.speed]
  rw [abs_mul, abs_mul, hd, mul_one, abs_of_pos (by norm_num : (0 : ℝ) < 420)]
  nlinarith [abs_nonneg (Real.cos (rnd * (6 / 10) - 3 / 10))]

/-- Claim C12 (amended): `_beginServe` sets `serveRemaining` to
`countdownSeconds + goHold = 3.25`. Over frames with `dt >= 0` that do not
expire the match clock, while the sum of `dt` is below 3.25 the phase stays
serve, `serveRemaining` is `max(0, 3.25 - sum)` and the ball is unchanged; on
the first frame at which the sum reaches 3.25, if its `dt` is at most 1 s, the
phase becomes play and `serveRemaining` is `max(0, 3.25 - sum) = 0`; the
paddles are updated on every one of these frames. -/
theorem C12_serve_timing (g0 : Game ℝ) (dir rnd : ℝ) (ts : List (Tick ℝ)) (t : Tick ℝ)
    (hdir : dir = 1 ∨ dir = -1) (hl : g0.left.x = 40) (hr : g0.right.x = 760)
    (hdt : ∀ u ∈ ts, 0 ≤ u.dt) (ht : 0 ≤ t.dt)
    (hserve : Tick.total ts < 3 + 25 / 100)
    (hclock : Tick.total ts + t.dt < g0.matchTimeLeft) :
    (g0._beginServe realMath dir rnd).state = Phase.serve ∧
    (g0._beginServe realMath dir rnd).serveRemaining =
      CONFIG.serve.countdownSeconds + CONFIG.serve.goHold ∧
    (CONFIG.serve.countdownSeconds + CONFIG.serve.goHold : ℝ) = 3 + 25 / 100 ∧
    ((g0._beginServe realMath dir rnd).run realMath ts).state = Phase.serve ∧
    ((g0._beginServe realMath dir rnd).run realMath ts).serveRemaining =
      max 0 (3 + 25 / 100 - Tick.total ts) ∧
    ((g0._beginServe realMath dir rnd).run realMath ts).ball =
      (g0._beginServe realMath dir rnd).ball ∧
    ((g0._beginServe realMath dir rnd).run realMath (ts ++ [t])).left =
      Game.leftPaddleStep t.input
        ((g0._beginServe realMath dir rnd).run realMath ts).left t.dt ∧
    ((g0._beginServe realMath dir rnd).run realMath (ts ++ [t])).right =
      Game.rightPaddleStep ((g0._beginServe realMath dir rnd).run realMath ts).twoPlayer
        t.input ((g0._beginServe realMath dir rnd).run realMath ts).right
        ((g0._beginServe realMath dir rnd).run realMath ts).ball.y t.dt ∧
    (Tick.total ts + t.dt < 3 + 25 / 100 →
      ((g0._beginServe realMath dir rnd).run realMath (ts ++ [t])).state = Phase.serve ∧
      ((g0._beginServe realMath dir rnd).run realMath (ts ++ [t])).serveRemaining =
        max 0 (3 + 25 / 100 - (Tick.total ts + t.dt)) ∧
      ((g0._beginServe realMath dir rnd).run realMath (ts ++ [t])).ball =
        (g0._beginServe realMath dir rnd).ball) ∧
    (3 + 25 / 100 ≤ Tick.total ts + t.dt → t.dt ≤ 1 →
      ((g0._beginServe realMath dir rnd).run realMath (ts ++ [t])).state = Phase.play ∧
      ((g0._beginServe realMath dir rnd).run realMath (ts ++ [t])).serveRemaining =
        max 0 (3 + 25 / 100 - (Tick.total ts + t.dt))) := by
  have hb := Game.beginServe_fields realMath g0 dir rnd
  have hsum := Tick.total_nonneg ts hdt
  have hrun := Game.run_serve realMath (g0._beginServe realMath dir rnd) ts hb.1 hb.2.2.1
    hb.2.2.2.1 (by rw [hb.2.2.2.2.1]; exact hl) (by rw [hb.2.2.2.2.2.1]; exact hr) hdt
    (by rw [hb.2.1]; exact hserve) (by rw [hb.2.2.2.2.2.2.1]; linarith)
  rw [hb.2.1, hb.2.2.2.2.2.2.1] at hrun
  have hclk : 0 < ((g0._beginServe realMath dir rnd).run realMath ts).matchTimeLeft - t.dt := by
    rw [hrun.2.2.1]; linarith
  have hbx : ((g0._beginServe realMath dir rnd).run realMath ts).ball.x = 400 := by
    rw [hrun.2.2.2.1]; exact hb.2.2.1
  have hbp : ((g0._beginServe realMath dir rnd).run realMath ts).ball.prevX = 400 := by
    rw [hrun.2.2.2.1]; exact hb.2.2.2.1
  refine ⟨rfl, rfl, rfl, hrun.1, ?_, hrun.2.2.2.1, ?_, ?_, ?_, ?_⟩
  · rw [hrun.2.1, max_eq_right (by linarith)]
  · rw [Game.run_append]
    exact (Game.update_live_paddles realMath
      { (g0._beginServe realMath dir rnd).run realMath ts with input := t.input } t.dt t.rnd
      (Or.inl hrun.1) hclk).1
  · rw [Game.run_append]
    exact (Game.update_live_paddles realMath
      { (g0._beginServe realMath dir rnd).run realMath ts with input := t.input } t.dt t.rnd
      (Or.inl hrun.1) hclk).2
  · intro hlt
    have h := Game.update_serve_stay realMath
      { (g0._beginServe realMath dir rnd).run realMath ts with input := t.input } t.dt t.rnd
      hrun.1 hclk
      (by show 0 < ((g0._beginServe realMath dir rnd).run realMath ts).serveRemaining - t.dt
          rw [hrun.2.1]; linarith)
      hbx hbp hrun.2.2.2.2.1 hrun.2.2.2.2.2.1
    rw [Game.run_append]
    refine ⟨h.1, ?_, h.2.2.2.1.trans hrun.2.2.2.1⟩
    unfold Game.frame
    rw [h.2.1, max_eq_right (by linarith)]
    show ((g0._beginServe realMath dir rnd).run realMath ts).serveRemaining - t.dt = _
    rw [hrun.2.1]; ring
  · intro hge ht1
    have hv : |((g0._beginServe realMath dir rnd).run realMath ts).ball.vx * t.dt| ≤ 440 := by
      rw [hrun.2.2.2.1, hb.2.2.2.2.2.2.2, abs_mul, abs_of_nonneg ht]
      have := Ball.reset_vx_abs g0.ball dir rnd hdir
      nlinarith [abs_nonneg (g0.ball.reset realMath dir rnd).vx]
    have h := Game.update_serve_end realMath
      { (g0._beginServe realMath dir rnd).run realMath ts with input := t.input } t.dt t.rnd
      hrun.1 hclk
      (by show ((g0._beginServe realMath dir rnd).run realMath ts).serveRemaining - t.dt ≤ 0
          rw [hrun.2.1]; linarith)
      hbx hrun.2.2.2.2.1 hrun.2.2.2.2.2.1 hv
    rw [Game.run_append]
    refine ⟨h.1, ?_⟩
    unfold Game.frame
    rw [h.2.1, max_eq_left (by linarith)]

theorem Examples.lowLeft_serve_ball :
    ((Examples.lowLeft : Game ℝ)._beginServe realMath (-1) (1 / 2)).ball =
      { x := 400, y := 225, prevX := 400, prevY := 225, vx := -420, vy := 0, speed := 420,
        hits := 0, didWallBounce := false } := by
  have ha : (1 / 2 : ℝ) * (6 / 10) - 3 / 10 = 0 := by norm_num
  simp only [Game._beginServe, Ball.reset, realMath, ha, Real.cos_zero, Real.sin_zero,
    CONFIG.world.w, CONFIG.world.h, CONFIG.ball.speed]
  norm_num

theorem Examples.lowLeft_rally_x :
    (Game.rally realMath
      (((Examples.lowLeft : Game ℝ)._beginServe realMath (-1) (1 / 2)).tickClock 4) 4).ball.x
      = -1280 := by
  rw [Game.rally_ball]
  simp only [Game.rally_keeps, Game.tickClock_keeps, Examples.lowLeft_serve_ball]
  norm_num [Game._beginServe, Examples.lowLeft, Examples.stateWith, Examples.idleInput,
    Game.hitBall, Game.contact, Game.sweep, circleRectHit, clamp, Paddle.rect, Paddle.new,
    Ball.update, Game.leftPaddleStep, Game.rightPaddleStep, Game.aiPaddle, Game.axisPaddle,
    Paddle.update, Input.getKeyboardAxisY, CONFIG.ball.r, CONFIG.world.h, CONFIG.paddle.h,
    CONFIG.paddle.w, CONFIG.ai.deadZone, CONFIG.ai.followSpeed, CONFIG.paddle.speed,
    CONFIG.serve.countdownSeconds, CONFIG.serve.goHold]

/-- Claim C12 as stated fails for a long tick: a single `update(4)` on a fresh
serve toward the left reaches the sum 3.25, yet the ball, integrated in the
same tick, passes the left paddle and leaves the field, so the tick ends in a
new serve with `serveRemaining = 3.25` instead of play with 0. -/
theorem C12_counterexample :
    ((Examples.lowLeft : Game ℝ)._beginServe realMath (-1) (1 / 2)).state = Phase.serve ∧
    (0 : ℝ) ≤ 4 ∧ (3 + 25 / 100 : ℝ) ≤ 4 ∧
    0 < ((Examples.lowLeft : Game ℝ)._beginServe realMath (-1) (1 / 2)).matchTimeLeft - 4 ∧
    (((Examples.lowLeft : Game ℝ)._beginServe realMath (-1) (1 / 2)).update
      realMath 4 (1 / 2)).state = Phase.serve ∧
    (((Examples.lowLeft : Game ℝ)._beginServe realMath (-1) (1 / 2)).update
      realMath 4 (1 / 2)).serveRemaining = 3 + 25 / 100 ∧
    max (0 : ℝ) (3 + 25 / 100 - 4) = 0 ∧
    (((Examples.lowLeft : Game ℝ)._beginServe realMath (-1) (1 / 2)).update
      realMath 4 (1 / 2)).rightScore = 1 := by
  have hclk : 0 <
      ((Examples.lowLeft : Game ℝ)._beginServe realMath (-1) (1 / 2)).matchTimeLeft - 4 := by
    norm_num [Game._beginServe, Examples.lowLeft, Examples.stateWith]
  have hx := Examples.lowLeft_rally_x
  have h := Game.tickScore_left_out realMath
    (Game.rally realMath
      (((Examples.lowLeft : Game ℝ)._beginServe realMath (-1) (1 / 2)).tickClock 4) 4)
    (1 / 2) (by rw [hx]; norm_num)
  have hc : ¬ (CONFIG.scoreToWin ≤ (Game.rally realMath
      (((Examples.lowLeft : Game ℝ)._beginServe realMath (-1) (1 / 2)).tickClock 4) 4).leftScore ∨
      CONFIG.scoreToWin ≤ (Game.rally realMath
      (((Examples.lowLeft : Game ℝ)._beginServe realMath (-1) (1 / 2)).tickClock 4)
        4).rightScore + 1) := by
    simp only [Game.rally_keeps, Game.tickClock_keeps]
    decide
  rw [if_neg hc] at h
  rw [Game.update_of_live realMath _ 4 (1 / 2) (Or.inl rfl) hclk]
  refine ⟨rfl, by norm_num, by norm_num, hclk, h.2.2.1, h.2.2.2.2, by norm_num, ?_⟩
  rw [h.1]
  simp only [Game.rally_keeps, Game.tickClock_keeps]
  rfl

/-- Claim C12 at a serve run for one frame of 1 s: the phase is still serve
and `serveRemaining` is `max(0, 3.25 - 1)` -/
theorem C12_serve_timing_witness :
    ((1 : ℝ) = 1 ∨ (1 : ℝ) = -1) ∧
    Tick.total [(Examples.idleTick 1 : Tick ℝ)] < 3 + 25 / 100 ∧
    (((Examples.lowLeft : Game ℝ)._beginServe realMath 1 (1 / 2)).run realMath
      [Examples.idleTick 1]).state = Phase.serve ∧
    (((Examples.lowLeft : Game ℝ)._beginServe realMath 1 (1 / 2)).run realMath
      [Examples.idleTick 1]).serveRemaining
      = max 0 (3 + 25 / 100 - Tick.total [(Examples.idleTick 1 : Tick ℝ)]) := by
  have htot : Tick.total [(Examples.idleTick 1 : Tick ℝ)] = 1 := by
    simp [Tick.total, Examples.idleTick]
  have h := C12_serve_timing (Examples.lowLeft : Game ℝ) 1 (1 / 2) [Examples.idleTick 1]
    (Examples.idleTick 1) (Or.inl rfl) rfl rfl
    (by intro u hu; rw [List.mem_singleton.mp hu]; norm_num [Examples.idleTick])
    (by norm_num [Examples.idleTick])
    (by rw [htot]; norm_num)
    (by rw [htot]; norm_num [Examples.idleTick, Examples.lowLeft, Examples.stateWith])
  exact ⟨Or.inl rfl, by rw [htot]; norm_num, h.2.2.2.1, h.2.2.2.2.1⟩

/-! ## Serve cues -/

section Cues
variable {K : Type} [LinearOrderedField K] [FloorRing K]

theorem ceil_after_go (sr dt : K) (h0 : 0 ≤ dt) (h1 : dt < 3 / 4)
    (hp : max 0 (sr - dt) > 0) (hc : ¬ max 0 (sr - dt) > CONFIG.serve.goHold) :
    Int.ceil (max 0 (sr - dt)) = Int.ceil sr := by
  have hm : max 0 (sr - dt) = sr - dt := by
    rcases max_choice 0 (sr - dt) with h | h
    · rw [h] at hp; exact absurd hp (lt_irrefl _)
    · exact h
  rw [hm] at hp hc ⊢
  unfold CONFIG.serve.goHold at hc
  have hle : sr - dt ≤ 25 / 100 := not_lt.mp hc
  rw [Int.ceil_eq_iff.mpr (by constructor <;> push_cast <;> linarith :
      ((1 : ℤ) : K) - 1 < sr - dt ∧ sr - dt ≤ ((1 : ℤ) : K)),
    Int.ceil_eq_iff.mpr (by constructor <;> push_cast <;> linarith :
      ((1 : ℤ) : K) - 1 < sr ∧ sr ≤ ((1 : ℤ) : K))]

theorem Game.tickServe_noGo (g : Game K) (dt : K) (h0 : 0 ≤ dt) (h1 : dt < 3 / 4)
    (hinv : g.noGoInv) : (Game.tickServe g dt).noGoInv := by
  unfold Game.noGoInv at hinv ⊢
  obtain ⟨hs, hl⟩ := hinv
  unfold Game.tickServe Game._endServeStartPlay
  simp only
  split_ifs
  all_goals first
    | exact ⟨hs, hl⟩
    | exact ⟨hs, rfl⟩
    | exact absurd
        ((ceil_after_go g.serveRemaining dt h0 h1 (by assumption) (by assumption)).trans
          hl.symm)
        (by assumption)
    | exact ⟨hs, by
        by_contra hne
        exact (by assumption : ¬ Int.ceil (max 0 (g.serveRemaining - dt)) ≠ g.lastServeSecond)
          (Ne.symm hne)⟩
    | (refine ⟨?_, rfl⟩; simp [hs])

theorem Game.tickBall_noGo (g : Game K) (dt : K) (hinv : g.noGoInv) :
    (Game.tickBall g dt).noGoInv := by
  unfold Game.noGoInv at hinv ⊢
  refine ⟨?_, by simp only [Game.tickBall_keeps]; exact hinv.2⟩
  unfold Game.tickBall
  simp only
  split_ifs <;> simp [hinv.1]

theorem Game.handlePaddleHit_noGo (M : MathOps K) (g : Game K) (p : Paddle K) (d : K)
    (hinv : g.noGoInv) : (g._handlePaddleHit M p d).noGoInv := by
  unfold Game.noGoInv at hinv ⊢
  refine ⟨?_, by simp only [Game.handlePaddleHit_keeps]; exact hinv.2⟩
  cases hc : Game.contact g.ball p d with
  | none => rw [Game.handlePaddleHit_of_none M g p d hc]; exact hinv.1
  | some yAt =>
    rw [(Game.handlePaddleHit_of_contact M g p d yAt hc).2]
    simp [hinv.1]

theorem Game.tickScore_noGo (M : MathOps K) (g : Game K) (rnd : K) (hinv : g.noGoInv) :
    (Game.tickScore M g rnd).noGoInv := by
  unfold Game.noGoInv at hinv ⊢
  unfold Game.tickScore
  simp only
  split_ifs
  · split
    · exact ⟨by simp [Game._gameOver, hinv.1], hinv.2⟩
    · exact ⟨by simp [Game._beginServe, Game._flash, hinv.1], rfl⟩
  · split
    · exact ⟨by simp [Game._gameOver, hinv.1], hinv.2⟩
    · exact ⟨by simp [Game._beginServe, hinv.1], rfl⟩
  · exact hinv

theorem Game.update_noGo (M : MathOps K) (g : Game K) (dt rnd : K) (h0 : 0 ≤ dt)
    (h1 : dt < 3 / 4) (hinv : g.noGoInv) : (g.update M dt rnd).noGoInv := by
  have hclock : (g.tickClock dt).noGoInv := by
    unfold Game.noGoInv at hinv ⊢
    simp only [Game.tickClock_keeps]
    exact hinv
  by_cases hi : g.state = Phase.pause ∨ g.state = Phase.menu ∨ g.state = Phase.over
  · rw [Game.update_of_idle M g dt rnd hi]
    exact hinv
  · have hl : g.state = Phase.serve ∨ g.state = Phase.play := by
      cases hs : g.state <;> simp_all
    by_cases he : g.matchTimeLeft - dt ≤ 0
    · rw [Game.update_of_expired M g dt rnd hl he]
      unfold Game.noGoInv at hclock ⊢
      exact ⟨by simp [Game._gameOver, hclock.1], hclock.2⟩
    · rw [Game.update_of_live M g dt rnd hl (not_le.mp he)]
      apply Game.tickScore_noGo
      unfold Game.rally Game.tickCollide
      apply Game.handlePaddleHit_noGo
      apply Game.handlePaddleHit_noGo
      apply Game.tickBall_noGo
      have hf : (Game.tickFlash (g.tickClock dt) dt).noGoInv := by
        unfold Game.noGoInv at hclock ⊢
        simp only [Game.tickFlash_keeps]
        exact hclock
      exact Game.tickServe_noGo _ dt h0 h1 hf

theorem Game.run_noGo (M : MathOps K) (g : Game K) (ts : List (Tick K))
    (hdt : ∀ u ∈ ts, 0 ≤ u.dt ∧ u.dt < 3 / 4) (hinv : g.noGoInv) :
    (g.run M ts).noGoInv := by
  induction ts using List.reverseRecOn with
  | nil => exact hinv
  | append_singleton ts t ih =>
    rw [Game.run_append]
    unfold Game.frame
    have hprev := ih (fun u hu => hdt u (by simp [hu]))
    exact Game.update_noGo M _ t.dt t.rnd (hdt t (by simp)).1 (hdt t (by simp)).2 hprev

end Cues

theorem Tick.total_replicate {K : Type} [LinearOrderedField K] (n : Nat) (t : Tick K) :
    Tick.total (List.replicate n t) = (n : K) * t.dt := by
  unfold Tick.total
  simp [List.map_replicate, List.sum_replicate]

/-- Claim C13, the code on a complete serve at the loop's frame length: from
`_beginServe`, 130 frames of 1/40 s (below the clamp 0.033) bring
`serveRemaining` from 3.25 to 0; the phase is serve after 129 of them and play
after the 130th, and the sound log of the whole serve holds no "go" cue. -/
theorem C13_no_go_cue :
    (((Examples.lowLeft : Game ℝ)._beginServe realMath 1 (1 / 2)).run realMath
      (List.replicate 129 (Examples.idleTick (1 / 40)))).state = Phase.serve ∧
    (((Examples.lowLeft : Game ℝ)._beginServe realMath 1 (1 / 2)).run realMath
      (List.replicate 130 (Examples.idleTick (1 / 40)))).state = Phase.play ∧
    Sfx.cueGo ∉ (((Examples.lowLeft : Game ℝ)._beginServe realMath 1 (1 / 2)).run realMath
      (List.replicate 130 (Examples.idleTick (1 / 40)))).sounds := by
  have hb := Game.beginServe_fields realMath (Examples.lowLeft : Game ℝ) 1 (1 / 2)
  have hinv : ((Examples.lowLeft : Game ℝ)._beginServe realMath 1 (1 / 2)).noGoInv := by
    unfold Game.noGoInv
    exact ⟨by simp [Game._beginServe, Examples.lowLeft, Examples.stateWith], rfl⟩
  have hdt : ∀ n : Nat, ∀ u ∈ List.replicate n (Examples.idleTick (1 / 40) : Tick ℝ),
      0 ≤ u.dt ∧ u.dt < 3 / 4 := by
    intro n u hu
    rw [List.eq_of_mem_replicate hu]
    norm_num [Examples.idleTick]
  have htot : Tick.total (List.replicate 129 (Examples.idleTick (1 / 40) : Tick ℝ))
      = 129 / 40 := by
    rw [Tick.total_replicate]
    norm_num [Examples.idleTick]
  have hmtl : ((Examples.lowLeft : Game ℝ)._beginServe realMath 1 (1 / 2)).matchTimeLeft
      = 100 := by
    rw [hb.2.2.2.2.2.2.1]
    rfl
  have hrun := Game.run_serve realMath
    ((Examples.lowLeft : Game ℝ)._beginServe realMath 1 (1 / 2))
    (List.replicate 129 (Examples.idleTick (1 / 40))) hb.1 hb.2.2.1 hb.2.2.2.1 rfl rfl
    (fun u hu => (hdt 129 u hu).1)
    (by rw [htot, hb.2.1]; norm_num) (by rw [htot, hmtl]; norm_num)
  rw [htot, hb.2.1, hmtl] at hrun
  refine ⟨hrun.1, ?_, (Game.run_noGo realMath _ _ (hdt 130) hinv).1⟩
  have hd : (Examples.idleTick (1 / 40) : Tick ℝ).dt = 1 / 40 := rfl
  have hv : |(((Examples.lowLeft : Game ℝ)._beginServe realMath 1 (1 / 2)).run realMath
      (List.replicate 129 (Examples.idleTick (1 / 40)))).ball.vx *
      (Examples.idleTick (1 / 40) : Tick ℝ).dt| ≤ 440 := by
    rw [hrun.2.2.2.1, hb.2.2.2.2.2.2.2, hd, abs_mul,
      abs_of_pos (by norm_num : (0 : ℝ) < 1 / 40)]
    have := Ball.reset_vx_abs (Examples.lowLeft : Game ℝ).ball 1 (1 / 2) (Or.inl rfl)
    linarith
  have hend := Game.frame_serve_end realMath _ (Examples.idleTick (1 / 40) : Tick ℝ) hrun.1
    (by rw [hrun.2.2.1, hd]; norm_num)
    (by rw [hrun.2.1, hd]; norm_num)
    (by rw [hrun.2.2.2.1]; exact hb.2.2.1)
    hrun.2.2.2.2.1 hrun.2.2.2.2.2.1 hv
  have hrep : List.replicate 130 (Examples.idleTick (1 / 40) : Tick ℝ) =
      List.replicate 129 (Examples.idleTick (1 / 40)) ++ [Examples.idleTick (1 / 40)] :=
    List.replicate_succ' 129 _
  rw [hrep, Game.run_append]
  exact hend.1

end Pong
